import Mathlib

/-!
Shallow embedding of `scripts/deployment-readiness-assessment.py`
(BigDecimal Migration Deployment Readiness Assessment Tool).

Modelling conventions:
* Python strings are modelled as `List Char`; Python `s.lower()`,
  `s.strip()`, `needle in s`, `s.split()`, `s.rstrip('%')` and `int(s)`
  are modelled by the executable helpers below (ASCII semantics, which is
  what every string the script manipulates uses).
* Every interaction with an external collaborator (subprocess, MySQL,
  HTTP, OS tools) is a field of a "world" structure supplying the raw
  outcome the collaborator would return; a raised exception is an
  explicit error constructor.  The script's control flow (try/except
  blocks, if/else chains, score accumulation) is translated statement by
  statement.
* Elapsed wall-clock times measured with `time.time()` are supplied by
  the world as rationals (milliseconds); Python float division in the
  aggregation is modelled with `Rat` division.
* Python ints are `Int`/`Nat`; `//` is floor division (`Int.fdiv`).
-/

/-- Python string, modelled as its list of characters. -/
abbrev PyStr := List Char

/-- Models `s.lower()` (ASCII). -/
def lowerL (s : PyStr) : PyStr := s.map Char.toLower

/-- Models `s.strip()`: drop whitespace from both ends. -/
def trimL (s : PyStr) : PyStr :=
  ((s.dropWhile Char.isWhitespace).reverse.dropWhile Char.isWhitespace).reverse

/-- Models `needle.startswith`-style matching used by `subL`: does `s` start with `n`? -/
def startsL : PyStr → PyStr → Bool
  | [], _ => true
  | _ :: _, [] => false
  | a :: as, b :: bs => a == b && startsL as bs

/-- Models Python `n in s` (contiguous substring test). -/
def subL : PyStr → PyStr → Bool
  | [], _ => true
  | _ :: _, [] => false
  | n, c :: rest => startsL n (c :: rest) || subL n rest

/-- Models `s.split('\n')`. -/
def splitNl (s : PyStr) : List PyStr := s.splitOn '\n'

/-- Models `s.split()` (split on whitespace runs, dropping empty fields). -/
def splitWs (s : PyStr) : List PyStr :=
  ((s.splitOnP Char.isWhitespace).filter (fun t => t ≠ []))

/-- Models `s.rstrip('%')`. -/
def rstripPct (s : PyStr) : PyStr := (s.reverse.dropWhile (fun c => c == '%')).reverse

/-- Value of a nonempty all-digit string, with accumulator. -/
def digitsValCore : PyStr → Nat → Option Nat
  | [], acc => some acc
  | c :: rest, acc =>
      if c.isDigit then digitsValCore rest (acc * 10 + (c.toNat - '0'.toNat)) else none

/-- Value of a nonempty all-digit string. -/
def digitsVal (s : PyStr) : Option Nat :=
  if s = [] then none else digitsValCore s 0

/-- Models Python `int(s)` on an already-stripped string: optional sign followed
by decimal digits; `none` models the `ValueError` raise. -/
def pyInt : PyStr → Option Int
  | '-' :: rest => (digitsVal rest).map (fun n => -(n : Int))
  | '+' :: rest => (digitsVal rest).map (fun n => (n : Int))
  | s => (digitsVal s).map (fun n => (n : Int))

/-- Models the `ValueError` message of a failed `int(s)` call. -/
def pyIntMsg (s : PyStr) : PyStr :=
  "invalid literal for int() with base 10: '".toList ++ s ++ "'".toList

/-- Models `str(n)` for a natural number. -/
def natChars (n : Nat) : PyStr := Nat.toDigits 10 n

/-- Models `str(n)` for a Python int. -/
def intChars (n : Int) : PyStr :=
  if n < 0 then '-' :: natChars n.natAbs else natChars n.natAbs

/-- Models the `f'{x:.2f}'` rendering of a measured time: the value rounded to
two decimal places (the script only ever embeds such strings into issue and
detail text; no decision is taken on the rendered string). -/
def fmt2 (q : Rat) : PyStr :=
  let n : Int := Int.fdiv (q.num * 200 + (q.den : Int)) ((q.den : Int) * 2)
  let sign : PyStr := if n < 0 then ['-'] else []
  let np := n.natAbs
  let frac := np % 100
  sign ++ natChars (np / 100) ++ ['.'] ++
    (if frac < 10 then '0' :: natChars frac else natChars frac)

/-- One category's result dictionary: `{'score': .., 'max_score': ..,
'details': {..}, 'issues': [..]}`.  `details` is an insertion-ordered
association list, as a Python dict is. -/
structure CatResult where
  score : Nat
  max_score : Nat
  details : List (PyStr × PyStr)
  issues : List PyStr
deriving Repr, DecidableEq

/-- The empty result each assessor starts from (`score 0, max_score 100`). -/
def initResult : CatResult := { score := 0, max_score := 100, details := [], issues := [] }

/-- Models `results['score'] += n`. -/
def addScore (r : CatResult) (n : Nat) : CatResult := { r with score := r.score + n }

/-- Models `results['details'][k] = v`. -/
def addDetail (r : CatResult) (k v : PyStr) : CatResult :=
  { r with details := r.details ++ [(k, v)] }

/-- Models `results['issues'].append(i)`. -/
def addIssue (r : CatResult) (i : PyStr) : CatResult :=
  { r with issues := r.issues ++ [i] }

/-- Outcome of the `mvn test` subprocess call in `assess_code_quality`:
a return code, a `subprocess.TimeoutExpired` raise, or any other raised
exception carrying its `str(e)` message. -/
inductive ProcOutcome where
  | ret (code : Int)
  | timedOut
  | err (msg : PyStr)
deriving Repr, DecidableEq

/-- World of `assess_code_quality`: the four external `mvn` invocations.
The coverage / static-analysis / security probes guard only with
`except Exception`, so for them a timeout is just another exception message
(`Except.error` carries `str(e)`); the backend-tests probe distinguishes
`TimeoutExpired`, hence `ProcOutcome`. -/
structure CqWorld where
  backend : ProcOutcome
  coverage : Except PyStr Int
  staticAnalysis : Except PyStr Int
  security : Except PyStr Int
deriving Repr

/-- Backend-tests probe (`mvn test -q`, 30 points). -/
def cqStage1 (b : ProcOutcome) (r : CatResult) : CatResult :=
  match b with
  | .ret c =>
      if c = 0 then addScore (addDetail r "backend_tests".toList "PASSED".toList) 30
      else addIssue (addDetail r "backend_tests".toList "FAILED".toList)
        "Backend tests failing".toList
  | .timedOut =>
      addIssue (addDetail r "backend_tests".toList "TIMEOUT".toList)
        "Backend tests timed out".toList
  | .err m =>
      addIssue (addDetail r "backend_tests".toList ("ERROR: ".toList ++ m))
        ("Backend test execution error: ".toList ++ m)

/-- Coverage-report probe (`mvn jacoco:report -q`, 20 points). -/
def cqStage2 (cov : Except PyStr Int) (r : CatResult) : CatResult :=
  match cov with
  | .ok c =>
      if c = 0 then addScore (addDetail r "test_coverage".toList "GENERATED".toList) 20
      else addIssue (addDetail r "test_coverage".toList "FAILED".toList)
        "Test coverage report generation failed".toList
  | .error m =>
      addIssue (addDetail r "test_coverage".toList ("ERROR: ".toList ++ m))
        ("Coverage report error: ".toList ++ m)

/-- Static-analysis probe (`mvn spotbugs:check -q`, 25 points). -/
def cqStage3 (sa : Except PyStr Int) (r : CatResult) : CatResult :=
  match sa with
  | .ok c =>
      if c = 0 then addScore (addDetail r "static_analysis".toList "PASSED".toList) 25
      else addIssue (addDetail r "static_analysis".toList "ISSUES_FOUND".toList)
        "Static analysis found issues".toList
  | .error m =>
      addIssue (addDetail r "static_analysis".toList ("ERROR: ".toList ++ m))
        ("Static analysis error: ".toList ++ m)

/-- Dependency-vulnerability probe (`mvn dependency-check:check -q`, 25 points). -/
def cqStage4 (sec : Except PyStr Int) (r : CatResult) : CatResult :=
  match sec with
  | .ok c =>
      if c = 0 then addScore (addDetail r "security_scan".toList "PASSED".toList) 25
      else addIssue (addDetail r "security_scan".toList "VULNERABILITIES_FOUND".toList)
        "Security vulnerabilities detected".toList
  | .error m =>
      addIssue (addDetail r "security_scan".toList ("ERROR: ".toList ++ m))
        ("Security scan error: ".toList ++ m)

/-- Models `DeploymentReadinessAssessment.assess_code_quality`: the four probes
run in order, each inside its own try/except block. -/
def assess_code_quality (w : CqWorld) : CatResult :=
  cqStage4 w.security (cqStage3 w.staticAnalysis (cqStage2 w.coverage (cqStage1 w.backend initResult)))

/-- Configuration subtree `config['database']`. -/
structure DbConfig where
  host : PyStr
  database : PyStr
  user : PyStr
  password : PyStr

/-- Configuration subtree `config['thresholds']`.  All four are numeric upper
bounds; JSON may carry floats, so they are rationals. -/
structure ThresholdCfg where
  response_time_ms : Rat
  memory_usage_mb : Rat
  test_pass_rate : Rat
  query_time_ms : Rat

/-- The effective configuration after `load_config`. -/
structure Config where
  api_base_url : PyStr
  database : DbConfig
  thresholds : ThresholdCfg

/-- The `default_config` dictionary of `load_config` (the `DB_PASSWORD`
environment variable is modelled by its default `''`). -/
def defaultConfig : Config :=
  { api_base_url := "http://localhost:8080".toList
  , database :=
      { host := "localhost".toList, database := "dcf_calculator".toList
      , user := "dcf_user".toList, password := [] }
  , thresholds :=
      { response_time_ms := 2000, memory_usage_mb := 2048
      , test_pass_rate := 95, query_time_ms := 1000 } }

/-- A raise inside `assess_database_readiness`'s single try block:
`mysql.connector.Error` (caught first) or any other exception, each carrying
`str(e)`. -/
inductive DbErr where
  | dbError (msg : PyStr)
  | otherExc (msg : PyStr)
deriving Repr

/-- One row fetched by the `information_schema.columns` query
(`table_name, column_name, data_type, numeric_precision, numeric_scale`);
the script only inspects index 2, `data_type`. -/
structure DbCol where
  table_name : PyStr
  column_name : PyStr
  data_type : PyStr
  numeric_precision : Option Int
  numeric_scale : Option Int

/-- World of `assess_database_readiness`: the outcome of every statement in
its single try block that can raise.  `none` on an `Option DbErr` field means
the call succeeded (its result is not inspected); the join-query elapsed time
is only consulted when `joinQuery` succeeded. -/
structure DbWorld where
  connect : Option DbErr
  select1 : Option DbErr
  schemaCols : Except DbErr (List DbCol)
  inputCount : Except DbErr Nat
  outputCount : Except DbErr Nat
  joinQuery : Option DbErr
  joinTimeMs : Rat

/-- State threaded through the try block: the accumulated result plus the
pending raised exception, if any (a raise skips every later statement). -/
abbrev DbState := CatResult × Option DbErr

/-- Connectivity probe: `connect`, `cursor.execute("SELECT 1")`, 20 points. -/
def dbStage1 (w : DbWorld) (s : DbState) : DbState :=
  match s with
  | (r, some e) => (r, some e)
  | (r, none) =>
    match w.connect with
    | some e => (r, some e)
    | none =>
      match w.select1 with
      | some e => (r, some e)
      | none => (addScore (addDetail r "connectivity".toList "OK".toList) 20, none)

/-- Schema probe: decimal-typed columns of the three migration tables, 30 points. -/
def dbStage2 (w : DbWorld) (s : DbState) : DbState :=
  match s with
  | (r, some e) => (r, some e)
  | (r, none) =>
    match w.schemaCols with
    | .error e => (r, some e)
    | .ok cols =>
      let decimalCols := cols.filter (fun c => c.data_type = "decimal".toList)
      if !decimalCols.isEmpty then
        (addScore (addDetail r "bigdecimal_columns".toList
          (natChars decimalCols.length ++ " found".toList)) 30, none)
      else
        (addIssue (addDetail r "bigdecimal_columns".toList "NOT_FOUND".toList)
          "BigDecimal columns not implemented".toList, none)

/-- Data-integrity probe: row counts of `dcf_inputs` and `dcf_outputs`, 25 points. -/
def dbStage3 (w : DbWorld) (s : DbState) : DbState :=
  match s with
  | (r, some e) => (r, some e)
  | (r, none) =>
    match w.inputCount with
    | .error e => (r, some e)
    | .ok ic =>
      match w.outputCount with
      | .error e => (r, some e)
      | .ok oc =>
        if ic > 0 ∧ oc > 0 then
          (addScore (addDetail r "data_integrity".toList
            ("Inputs: ".toList ++ natChars ic ++ ", Outputs: ".toList ++ natChars oc)) 25, none)
        else
          (addIssue (addDetail r "data_integrity".toList "NO_DATA".toList)
            "No test data available".toList, none)

/-- Query-performance probe: timed indexed join, 25 points. -/
def dbStage4 (cfg : Config) (w : DbWorld) (s : DbState) : DbState :=
  match s with
  | (r, some e) => (r, some e)
  | (r, none) =>
    match w.joinQuery with
    | some e => (r, some e)
    | none =>
      if w.joinTimeMs < cfg.thresholds.query_time_ms then
        (addScore (addDetail r "query_performance".toList (fmt2 w.joinTimeMs ++ "ms".toList)) 25, none)
      else
        (addIssue (addDetail r "query_performance".toList
            (fmt2 w.joinTimeMs ++ "ms (SLOW)".toList))
          ("Query performance below threshold: ".toList ++ fmt2 w.joinTimeMs ++ "ms".toList), none)

/-- The `except Error` / `except Exception` handlers of the database try block:
a single details entry and a single issue for the whole assessor. -/
def dbFinal (s : DbState) : CatResult :=
  match s with
  | (r, none) => r
  | (r, some (.dbError m)) =>
      addIssue (addDetail r "database_error".toList m)
        ("Database connection error: ".toList ++ m)
  | (r, some (.otherExc m)) =>
      addIssue (addDetail r "unexpected_error".toList m)
        ("Unexpected database error: ".toList ++ m)

/-- Models `DeploymentReadinessAssessment.assess_database_readiness`: one try
block around all four probes, so the first raise skips every later probe and
lands in the matching handler.  The `finally` close of cursor and connection
has no observable effect on the result. -/
def assess_database_readiness (cfg : Config) (w : DbWorld) : CatResult :=
  dbFinal (dbStage4 cfg w (dbStage3 w (dbStage2 w (dbStage1 w (initResult, none)))))

/-- Outcome of one `requests` call: a response (status code and text body) or
a raised `requests.exceptions.RequestException` with its `str(e)`. -/
inductive HttpResult where
  | resp (status : Int) (body : PyStr)
  | exc (msg : PyStr)
deriving Repr

/-- World of `assess_api_readiness`: the three HTTP calls and the measured
elapsed time of the DCF calculation request. -/
structure ApiWorld where
  health : HttpResult
  financial : HttpResult
  dcf : HttpResult
  dcfTimeMs : Rat

/-- Health probe: `GET /actuator/health`, 25 points. -/
def apiStage1 (h : HttpResult) (r : CatResult) : CatResult :=
  match h with
  | .resp status _ =>
      if status = 200 then addScore (addDetail r "health_check".toList "OK".toList) 25
      else addIssue (addDetail r "health_check".toList ("HTTP ".toList ++ intChars status))
        ("Health check failed: ".toList ++ intChars status)
  | .exc m =>
      addIssue (addDetail r "health_check".toList ("ERROR: ".toList ++ m))
        ("Health check error: ".toList ++ m)

/-- Financial-data probe: `GET /api/financial-data/AAPL`; on a 200 response it
checks the body for scientific notation (25 points) and then for quoted
decimal values (25 points). -/
def apiStage2 (f : HttpResult) (r : CatResult) : CatResult :=
  match f with
  | .resp status body =>
      if status = 200 then
        let r1 :=
          if (lowerL body).contains 'e' || body.contains 'E' then
            addIssue (addDetail r "serialization".toList "SCIENTIFIC_NOTATION_DETECTED".toList)
              "API responses contain scientific notation".toList
          else addScore (addDetail r "serialization".toList "OK".toList) 25
        if body.contains '"' && body.contains '.' then
          addScore (addDetail r1 "decimal_format".toList "OK".toList) 25
        else
          addIssue (addDetail r1 "decimal_format".toList "NO_DECIMALS".toList)
            "API responses missing decimal values".toList
      else
        addIssue (addDetail r "financial_endpoint".toList ("HTTP ".toList ++ intChars status))
          ("Financial data endpoint failed: ".toList ++ intChars status)
  | .exc m =>
      addIssue (addDetail r "financial_endpoint".toList ("ERROR: ".toList ++ m))
        ("Financial endpoint error: ".toList ++ m)

/-- DCF-calculation probe: timed `POST /api/dcf/calculate`, 25 points. -/
def apiStage3 (cfg : Config) (d : HttpResult) (tMs : Rat) (r : CatResult) : CatResult :=
  match d with
  | .resp status _ =>
      if status = 200 then
        if tMs < cfg.thresholds.response_time_ms then
          addScore (addDetail r "dcf_performance".toList (fmt2 tMs ++ "ms".toList)) 25
        else
          addIssue (addDetail r "dcf_performance".toList (fmt2 tMs ++ "ms (SLOW)".toList))
            ("DCF calculation too slow: ".toList ++ fmt2 tMs ++ "ms".toList)
      else
        addIssue (addDetail r "dcf_endpoint".toList ("HTTP ".toList ++ intChars status))
          ("DCF calculation failed: ".toList ++ intChars status)
  | .exc m =>
      addIssue (addDetail r "dcf_endpoint".toList ("ERROR: ".toList ++ m))
        ("DCF endpoint error: ".toList ++ m)

/-- Models `DeploymentReadinessAssessment.assess_api_readiness`: three probes,
each in its own try/except block. -/
def assess_api_readiness (cfg : Config) (w : ApiWorld) : CatResult :=
  apiStage3 cfg w.dcf w.dcfTimeMs (apiStage2 w.financial (apiStage1 w.health initResult))

/-- Outcome of one `subprocess.run` call in `assess_system_resources`:
captured stdout and return code. -/
structure ProcRes where
  stdout : PyStr
  returncode : Int

/-- World of `assess_system_resources`: the four OS tool invocations; an
`Except.error` models the call itself raising (caught by the enclosing
try/except). -/
structure SysWorld where
  pgrep : Except PyStr ProcRes
  ps : Except PyStr ProcRes
  df : Except PyStr ProcRes
  uptime : Except PyStr ProcRes

/-- Memory probe (40 points): `pgrep -f dcf-calculator`, then
`ps -p <pid> -o rss=` on the first reported pid, `int(..) // 1024`, compared
against the memory threshold.  Any raise in the block (including a
`ValueError` from `int`) lands in `except Exception`. -/
def sysStage1 (cfg : Config) (w : SysWorld) (r : CatResult) : CatResult :=
  match w.pgrep with
  | .error m =>
      addIssue (addDetail r "resource_check".toList ("ERROR: ".toList ++ m))
        ("Resource check error: ".toList ++ m)
  | .ok jp =>
    if trimL jp.stdout ≠ [] then
      match w.ps with
      | .error m =>
          addIssue (addDetail r "resource_check".toList ("ERROR: ".toList ++ m))
            ("Resource check error: ".toList ++ m)
      | .ok mi =>
        let t := trimL mi.stdout
        if t ≠ [] then
          match pyInt t with
          | none =>
              addIssue (addDetail r "resource_check".toList ("ERROR: ".toList ++ pyIntMsg t))
                ("Resource check error: ".toList ++ pyIntMsg t)
          | some kb =>
            let mb := Int.fdiv kb 1024
            if (mb : Rat) < cfg.thresholds.memory_usage_mb then
              addScore (addDetail r "memory_usage".toList (intChars mb ++ "MB".toList)) 40
            else
              addIssue (addDetail r "memory_usage".toList (intChars mb ++ "MB (HIGH)".toList))
                ("High memory usage: ".toList ++ intChars mb ++ "MB".toList)
        else
          addIssue (addDetail r "memory_usage".toList "UNKNOWN".toList)
            "Could not determine memory usage".toList
    else
      addIssue (addDetail r "java_process".toList "NOT_RUNNING".toList)
        "Application not running".toList

/-- Disk probe (30 points): `df -h .`, parse line 1 fields 3 and 4 of its
output.  When `df` exits non-zero, or its output has at most one line, the
probe silently records nothing; an out-of-range index or a failed `int` lands
in `except Exception`. -/
def sysStage2 (w : SysWorld) (r : CatResult) : CatResult :=
  match w.df with
  | .error m =>
      addIssue (addDetail r "disk_check".toList ("ERROR: ".toList ++ m))
        ("Disk space check error: ".toList ++ m)
  | .ok di =>
    if di.returncode = 0 then
      let lines := splitNl (trimL di.stdout)
      if lines.length > 1 then
        let diskData := splitWs (lines.getD 1 [])
        match diskData.get? 3, diskData.get? 4 with
        | some avail, some usageRaw =>
          let usagePct := rstripPct usageRaw
          match pyInt usagePct with
          | none =>
              addIssue (addDetail r "disk_check".toList ("ERROR: ".toList ++ pyIntMsg usagePct))
                ("Disk space check error: ".toList ++ pyIntMsg usagePct)
          | some u =>
            if u < 90 then
              addScore (addDetail r "disk_space".toList
                (avail ++ " available (".toList ++ usagePct ++ "% used)".toList)) 30
            else
              addIssue (addDetail r "disk_space".toList
                  (avail ++ " available (".toList ++ usagePct ++ "% used) - LOW".toList))
                ("Low disk space: ".toList ++ usagePct ++ "% used".toList)
        | _, _ =>
          addIssue (addDetail r "disk_check".toList "ERROR: list index out of range".toList)
            "Disk space check error: list index out of range".toList
      else r
    else r

/-- Load probe (30 points): `uptime`.  On a zero exit it records the stripped
output and scores; on a non-zero exit it records nothing; on a raise the
handler records a details entry but, unlike every other probe, appends no
issue string. -/
def sysStage3 (w : SysWorld) (r : CatResult) : CatResult :=
  match w.uptime with
  | .error m => addDetail r "load_check".toList ("ERROR: ".toList ++ m)
  | .ok li =>
    if li.returncode = 0 then
      addScore (addDetail r "system_load".toList (trimL li.stdout)) 30
    else r

/-- Models `DeploymentReadinessAssessment.assess_system_resources`: three
probes, each in its own try/except block. -/
def assess_system_resources (cfg : Config) (w : SysWorld) : CatResult :=
  sysStage3 w (sysStage2 w (sysStage1 cfg w initResult))

/-- The fixed keyword set of the issue classifier in `run_assessment`. -/
def criticalKeywords : List PyStr :=
  ["critical".toList, "failed".toList, "error".toList, "not found".toList]

/-- Models `any(keyword in issue.lower() for keyword in [...])`: an issue is
critical iff its lowercased text contains one of the keywords as a substring. -/
def isCritical (issue : PyStr) : Bool :=
  criticalKeywords.any (fun kw => subL kw (lowerL issue))

/-- Models `sum(cat['score'] for cat in categories.values())`. -/
def catTotal (cats : List CatResult) : Nat := (cats.map (fun c => c.score)).sum

/-- Models `sum(cat['max_score'] for cat in categories.values())`. -/
def catMaxTotal (cats : List CatResult) : Nat := (cats.map (fun c => c.max_score)).sum

/-- Models `(total_score / max_total_score) * 100 if max_total_score > 0 else 0`. -/
def readinessScoreOf (cats : List CatResult) : Rat :=
  if catMaxTotal cats > 0 then
    ((catTotal cats : Rat) / (catMaxTotal cats : Rat)) * 100
  else 0

/-- All issue strings across the categories, in category order. -/
def allIssuesOf (cats : List CatResult) : List PyStr :=
  (cats.map (fun c => c.issues)).flatten

/-- Models the status policy of `run_assessment`: `READY` iff score at least
90 and no critical issue, else `READY_WITH_WARNINGS` iff score at least 70 and
at most 2 critical issues, else `NOT_READY`. -/
def statusOf (score : Rat) (crit : List PyStr) : PyStr :=
  if 90 ≤ score ∧ crit = [] then "READY".toList
  else if 70 ≤ score ∧ crit.length ≤ 2 then "READY_WITH_WARNINGS".toList
  else "NOT_READY".toList

/-- Models `DeploymentReadinessAssessment.generate_recommendations`.  The
opening block is chosen by the raw score fraction (`total/max >= 0.9`, then
`>= 0.7`); the trigger blocks scan the full issue corpus.  With a zero total
maximum the very first division raises `ZeroDivisionError`, modelled as the
`Except.error` branch. -/
def generate_recommendations (cats : List CatResult) : Except PyStr (List PyStr) :=
  let totalScore := catTotal cats
  let maxTotalScore := catMaxTotal cats
  if maxTotalScore = 0 then .error "ZeroDivisionError: division by zero".toList
  else
    let frac : Rat := (totalScore : Rat) / (maxTotalScore : Rat)
    let base : List PyStr :=
      if (9 : Rat) / 10 ≤ frac then
        ["✅ System is ready for deployment".toList,
         "Proceed with deployment checklist".toList]
      else if (7 : Rat) / 10 ≤ frac then
        ["⚠️ System has minor issues but may proceed with caution".toList,
         "Address warnings before deployment".toList,
         "Ensure rollback procedures are ready".toList]
      else
        ["❌ System is not ready for deployment".toList,
         "Address critical issues before proceeding".toList,
         "Re-run assessment after fixes".toList]
    let allIssues := allIssuesOf cats
    let testBlock : List PyStr :=
      if allIssues.any (fun i => subL "test".toList (lowerL i)) then
        ["Fix failing tests before deployment".toList]
      else []
    let perfBlock : List PyStr :=
      if allIssues.any (fun i =>
          subL "performance".toList (lowerL i) || subL "slow".toList (lowerL i)) then
        ["Optimize performance before deployment".toList,
         "Consider load testing with BigDecimal operations".toList]
      else []
    let memBlock : List PyStr :=
      if allIssues.any (fun i => subL "memory".toList (lowerL i)) then
        ["Monitor memory usage closely during deployment".toList,
         "Consider increasing JVM heap size".toList]
      else []
    let dbBlock : List PyStr :=
      if allIssues.any (fun i => subL "database".toList (lowerL i)) then
        ["Verify database migration scripts".toList,
         "Ensure database backup is current".toList]
      else []
    .ok (base ++ testBlock ++ perfBlock ++ memBlock ++ dbBlock)

/-- World of one complete invocation: the external outcomes feeding each of
the four assessors. -/
structure World where
  cq : CqWorld
  db : DbWorld
  api : ApiWorld
  sys : SysWorld

/-- The ordered category mapping built by `run_assessment`. -/
def pipelineCats (cfg : Config) (w : World) : List (PyStr × CatResult) :=
  [("code_quality".toList, assess_code_quality w.cq),
   ("database".toList, assess_database_readiness cfg w.db),
   ("api".toList, assess_api_readiness cfg w.api),
   ("system_resources".toList, assess_system_resources cfg w.sys)]

/-- The finalized `self.results` tree (the fields `run_assessment` derives). -/
structure Results where
  categories : List (PyStr × CatResult)
  readiness_score : Rat
  critical_issues : List PyStr
  warnings : List PyStr
  overall_status : PyStr
  recommendations : List PyStr

/-- Models `DeploymentReadinessAssessment.run_assessment`: run the four
assessors in order, aggregate the score, partition the issues, fix the
status, and generate recommendations.  In the pipeline the total maximum is
always 400, so the `ZeroDivisionError` branch of `generate_recommendations`
is unreachable (`genRec_pipeline_ok` below); its fallback here is `[]`. -/
def run_assessment (cfg : Config) (w : World) : Results :=
  let cats := pipelineCats cfg w
  let cs := cats.map (fun p => p.2)
  let rs := readinessScoreOf cs
  let issues := allIssuesOf cs
  let crit := issues.filter (fun i => isCritical i)
  let warns := issues.filter (fun i => !(isCritical i))
  { categories := cats
  , readiness_score := rs
  , critical_issues := crit
  , warnings := warns
  , overall_status := statusOf rs crit
  , recommendations := ((generate_recommendations cs).toOption).getD [] }

/-- Outcome of one key lookup in the effective `config['thresholds']` mapping
together with the numeric comparison using its value: `.ok q` when the key is
present with a numeric value (the only shape the defaults have), `.error m`
when the lookup or the comparison raises — a `KeyError` when an override
replaced the thresholds dict with one lacking the key (its `str` is the
quoted key), or a `TypeError` when the override is not a dict at all or the
value is not a number. -/
abbrev ThresholdEntry := Except PyStr Rat

/-- The effective `config['thresholds']` as the assessors observe it: one
lookup outcome per key.  `test_pass_rate` is declared in the defaults but
never read anywhere in the script. -/
structure ThresholdLookups where
  response_time_ms : ThresholdEntry
  memory_usage_mb : ThresholdEntry
  test_pass_rate : ThresholdEntry
  query_time_ms : ThresholdEntry

/-- The effective `self.config` after the shallow merge, keeping the
threshold lookups symbolic so that ill-typed-but-valid-JSON overrides are
representable.  An ill-typed `database` override needs no extra tracking:
its only read is `mysql.connector.connect(**...)` inside the database try
block, whose `except Exception` handler catches the resulting `TypeError`,
an outcome already expressible as a failing `DbWorld.connect`; and
`api_base_url` is only interpolated into URL strings, which `str()` accepts
for any value. -/
structure FullConfig where
  api_base_url : PyStr
  database : DbConfig
  thresholds : ThresholdLookups

/-- The default configuration as a `FullConfig`: every threshold lookup
succeeds with the default numeric bound. -/
def fullDefaultConfig : FullConfig :=
  { api_base_url := defaultConfig.api_base_url
  , database := defaultConfig.database
  , thresholds :=
      { response_time_ms := .ok 2000, memory_usage_mb := .ok 2048
      , test_pass_rate := .ok 95, query_time_ms := .ok 1000 } }

/-- A successfully parsed configuration document, described by what
`default_config.update(user_config)` and the later lookups observe of it.
`notObj` is a non-object document on which `dict.update` raises (a scalar,
or an array whose elements are not key-value pairs); a non-object document
that `dict.update` does accept (an array of two-element sequences) merges
key by key and is represented by `obj`.  In `obj`, a present section
replaces the default section wholesale; a replaced `thresholds` section is
described by the outcomes of the four key lookups the assessors later
perform against it — so an override document with an empty thresholds
object is `obj none none (some lookups)` with every lookup a `KeyError`. -/
inductive CfgDoc where
  | notObj (raiseMsg : PyStr)
  | obj (api_base_url : Option PyStr) (database : Option DbConfig)
        (thresholds : Option ThresholdLookups)

/-- Models `load_config`.  `none` is "no config file given, or the path does
not exist" (defaults used); `some (.error m)` is a file whose contents make
`json.load` raise; a parsed non-object document makes `dict.update` raise;
a parsed object is shallow-merged over the defaults.  Either raise
propagates — `load_config` has no handler. -/
def load_config (ci : Option (Except PyStr CfgDoc)) : Except PyStr FullConfig :=
  match ci with
  | none => .ok fullDefaultConfig
  | some (.error m) => .error m
  | some (.ok (.notObj m)) => .error m
  | some (.ok (.obj a d t)) =>
      .ok { api_base_url := a.getD fullDefaultConfig.api_base_url
          , database := d.getD fullDefaultConfig.database
          , thresholds := t.getD fullDefaultConfig.thresholds }

/-- The well-typed configuration a `FullConfig` collapses to when all of its
threshold lookups succeed (the `test_pass_rate` slot is a free parameter
since the script never reads it). -/
def collapseConfig (fc : FullConfig) (rt mu tp qt : Rat) : Config :=
  { api_base_url := fc.api_base_url, database := fc.database
  , thresholds := { response_time_ms := rt, memory_usage_mb := mu
                  , test_pass_rate := tp, query_time_ms := qt } }

/-- Query-performance probe with the `query_time_ms` lookup outcome explicit:
the lookup happens inside the database try block, so a raising lookup is
caught by `except Exception` like any other mid-probe exception. -/
def dbStage4L (thr : ThresholdEntry) (w : DbWorld) (s : DbState) : DbState :=
  match s with
  | (r, some e) => (r, some e)
  | (r, none) =>
    match w.joinQuery with
    | some e => (r, some e)
    | none =>
      match thr with
      | .error m => (r, some (.otherExc m))
      | .ok q =>
        if w.joinTimeMs < q then
          (addScore (addDetail r "query_performance".toList
            (fmt2 w.joinTimeMs ++ "ms".toList)) 25, none)
        else
          (addIssue (addDetail r "query_performance".toList
              (fmt2 w.joinTimeMs ++ "ms (SLOW)".toList))
            ("Query performance below threshold: ".toList ++ fmt2 w.joinTimeMs ++ "ms".toList),
           none)

/-- `assess_database_readiness` over a `FullConfig`. -/
def assess_database_readiness_full (fc : FullConfig) (w : DbWorld) : CatResult :=
  dbFinal (dbStage4L fc.thresholds.query_time_ms w
    (dbStage3 w (dbStage2 w (dbStage1 w (initResult, none)))))

/-- DCF probe with the `response_time_ms` lookup outcome explicit: on a 200
response the comparison reads the threshold inside a try block whose only
handler is `except requests.exceptions.RequestException`, so a
`KeyError`/`TypeError` from the lookup escapes the probe, the assessor and
`run_assessment`; the `.error` result models that uncaught propagation. -/
def apiStage3L (thr : ThresholdEntry) (d : HttpResult) (tMs : Rat) (r : CatResult) :
    Except PyStr CatResult :=
  match d with
  | .resp status _ =>
      if status = 200 then
        match thr with
        | .error m => .error m
        | .ok q =>
          .ok (if tMs < q then
              addScore (addDetail r "dcf_performance".toList (fmt2 tMs ++ "ms".toList)) 25
            else
              addIssue (addDetail r "dcf_performance".toList (fmt2 tMs ++ "ms (SLOW)".toList))
                ("DCF calculation too slow: ".toList ++ fmt2 tMs ++ "ms".toList))
      else
        .ok (addIssue (addDetail r "dcf_endpoint".toList ("HTTP ".toList ++ intChars status))
          ("DCF calculation failed: ".toList ++ intChars status))
  | .exc m =>
      .ok (addIssue (addDetail r "dcf_endpoint".toList ("ERROR: ".toList ++ m))
        ("DCF endpoint error: ".toList ++ m))

/-- `assess_api_readiness` over a `FullConfig`: may end in an uncaught raise. -/
def assess_api_readiness_full (fc : FullConfig) (w : ApiWorld) : Except PyStr CatResult :=
  apiStage3L fc.thresholds.response_time_ms w.dcf w.dcfTimeMs
    (apiStage2 w.financial (apiStage1 w.health initResult))

/-- Memory probe with the `memory_usage_mb` lookup outcome explicit: the
lookup happens inside the memory try block, whose `except Exception` converts
the raise into the `resource_check` outcome. -/
def sysStage1L (thr : ThresholdEntry) (w : SysWorld) (r : CatResult) : CatResult :=
  match w.pgrep with
  | .error m =>
      addIssue (addDetail r "resource_check".toList ("ERROR: ".toList ++ m))
        ("Resource check error: ".toList ++ m)
  | .ok jp =>
    if trimL jp.stdout ≠ [] then
      match w.ps with
      | .error m =>
          addIssue (addDetail r "resource_check".toList ("ERROR: ".toList ++ m))
            ("Resource check error: ".toList ++ m)
      | .ok mi =>
        let t := trimL mi.stdout
        if t ≠ [] then
          match pyInt t with
          | none =>
              addIssue (addDetail r "resource_check".toList ("ERROR: ".toList ++ pyIntMsg t))
                ("Resource check error: ".toList ++ pyIntMsg t)
          | some kb =>
            let mb := Int.fdiv kb 1024
            match thr with
            | .error m =>
                addIssue (addDetail r "resource_check".toList ("ERROR: ".toList ++ m))
                  ("Resource check error: ".toList ++ m)
            | .ok mu =>
              if (mb : Rat) < mu then
                addScore (addDetail r "memory_usage".toList (intChars mb ++ "MB".toList)) 40
              else
                addIssue (addDetail r "memory_usage".toList (intChars mb ++ "MB (HIGH)".toList))
                  ("High memory usage: ".toList ++ intChars mb ++ "MB".toList)
        else
          addIssue (addDetail r "memory_usage".toList "UNKNOWN".toList)
            "Could not determine memory usage".toList
    else
      addIssue (addDetail r "java_process".toList "NOT_RUNNING".toList)
        "Application not running".toList

/-- `assess_system_resources` over a `FullConfig`. -/
def assess_system_resources_full (fc : FullConfig) (w : SysWorld) : CatResult :=
  sysStage3 w (sysStage2 w (sysStage1L fc.thresholds.memory_usage_mb w initResult))

/-- `run_assessment` over a `FullConfig`: the assessors run in order; if the
API assessor's threshold lookup raises, the raise propagates (the system
assessor never runs and no results tree is finalized); otherwise the
aggregation is the one of `run_assessment`. -/
def run_assessment_full (fc : FullConfig) (w : World) : Except PyStr Results :=
  let cq := assess_code_quality w.cq
  let db := assess_database_readiness_full fc w.db
  match assess_api_readiness_full fc w.api with
  | .error m => .error m
  | .ok api =>
    let sys := assess_system_resources_full fc w.sys
    let cats := [("code_quality".toList, cq), ("database".toList, db),
                 ("api".toList, api), ("system_resources".toList, sys)]
    let cs := cats.map (fun p => p.2)
    let rs := readinessScoreOf cs
    let issues := allIssuesOf cs
    let crit := issues.filter (fun i => isCritical i)
    let warns := issues.filter (fun i => !(isCritical i))
    .ok { categories := cats
        , readiness_score := rs
        , critical_issues := crit
        , warnings := warns
        , overall_status := statusOf rs crit
        , recommendations := ((generate_recommendations cs).toOption).getD [] }

/-- Models the exit-code mapping at the end of `main`. -/
def exitFor (status : PyStr) : Nat :=
  if status = "READY".toList then 0
  else if status = "READY_WITH_WARNINGS".toList then 1
  else 2

/-- How one process invocation ends: a `sys.exit` with a code, or an uncaught
exception (Python then terminates with a traceback, outside the script's
exit-code contract). -/
inductive RunOutcome where
  | exited (code : Nat)
  | raised (msg : PyStr)
deriving Repr, DecidableEq

/-- Models `main`: load the configuration (an uncaught `json.JSONDecodeError`
or `dict.update` raise escapes here), run the assessment (an uncaught
threshold-lookup raise escapes there), and otherwise exit with the
status-mapped code.  Report persistence and console printing do not affect
the outcome and are not modelled. -/
def mainRun (ci : Option (Except PyStr CfgDoc)) (w : World) : RunOutcome :=
  match load_config ci with
  | .error m => .raised m
  | .ok fc =>
    match run_assessment_full fc w with
    | .error m => .raised m
    | .ok res => .exited (exitFor res.overall_status)

/-- A code-quality world where all four `mvn` probes succeed. -/
def cqPerfect : CqWorld :=
  { backend := .ret 0, coverage := .ok 0, staticAnalysis := .ok 0, security := .ok 0 }

/-- A database world where every query succeeds, decimal columns exist, both
tables have rows, and the join query is fast. -/
def dbPerfect : DbWorld :=
  { connect := none, select1 := none
  , schemaCols := .ok [{ table_name := "dcf_inputs".toList, column_name := "discount_rate".toList
                       , data_type := "decimal".toList, numeric_precision := some 20
                       , numeric_scale := some 6 }]
  , inputCount := .ok 10, outputCount := .ok 10
  , joinQuery := none, joinTimeMs := 50 }

/-- An API world where all three endpoints answer 200 fast with a clean body. -/
def apiPerfect : ApiWorld :=
  { health := .resp 200 []
  , financial := .resp 200 "\"cash\": \"1.50\"".toList
  , dcf := .resp 200 [], dcfTimeMs := 100 }

/-- Output of a healthy `df -h .` call. -/
def dfHealthy : ProcRes :=
  { stdout := "Filesystem Size Used Avail Use% Mounted\n/dev/sda1 100G 10G 90G 10% /".toList
  , returncode := 0 }

/-- A system world where the application runs within its memory budget, disk
usage is low, and `uptime` succeeds. -/
def sysPerfect : SysWorld :=
  { pgrep := .ok { stdout := "1234".toList, returncode := 0 }
  , ps := .ok { stdout := " 1024 ".toList, returncode := 0 }
  , df := .ok dfHealthy
  , uptime := .ok { stdout := "up 1 day".toList, returncode := 0 } }

/-- The all-perfect invocation world: every probe of every assessor succeeds. -/
def perfectWorld : World :=
  { cq := cqPerfect, db := dbPerfect, api := apiPerfect, sys := sysPerfect }

/-- Everything perfect except the health endpoint, whose request raises: the
sole issue contains `error` (critical) but costs only 25 points. -/
def healthDownWorld : World :=
  { perfectWorld with api := { apiPerfect with health := .exc "connection refused".toList } }

/-- A database world whose initial `mysql.connector.connect` raises
`mysql.connector.Error` with message `m`. -/
def dbConnFail (m : PyStr) : DbWorld :=
  { connect := some (.dbError m), select1 := none, schemaCols := .ok []
  , inputCount := .ok 1, outputCount := .ok 1, joinQuery := none, joinTimeMs := 0 }

/-- Everything perfect except a total database outage at connect time. -/
def dbOutageWorld (m : PyStr) : World := { perfectWorld with db := dbConnFail m }

/-- A database world where the connection is fine but the schema query raises
mid-probe, while the row-count queries would succeed. -/
def dbMidFail : DbWorld :=
  { connect := none, select1 := none
  , schemaCols := .error (.dbError "schema query crashed".toList)
  , inputCount := .ok 5, outputCount := .ok 5, joinQuery := none, joinTimeMs := 0 }

/-- Everything perfect except `uptime` exiting non-zero. -/
def sysLoadFail : SysWorld :=
  { sysPerfect with uptime := .ok { stdout := [], returncode := 1 } }

/-- Everything perfect except `df` exiting non-zero. -/
def sysDiskFail : SysWorld :=
  { sysPerfect with df := .ok { stdout := [], returncode := 1 } }

/-- A configuration input whose file exists but holds malformed JSON: the
`json.load` raise, with CPython's message. -/
def badCfgInput : Option (Except PyStr CfgDoc) :=
  some (.error "Expecting value: line 1 column 1 (char 0)".toList)

/-- The threshold lookups after an override replaced the thresholds section
with an empty object: every key lookup raises `KeyError`, whose `str` is the
quoted key. -/
def emptyThresholdLookups : ThresholdLookups :=
  { response_time_ms := .error "'response_time_ms'".toList
  , memory_usage_mb := .error "'memory_usage_mb'".toList
  , test_pass_rate := .error "'test_pass_rate'".toList
  , query_time_ms := .error "'query_time_ms'".toList }

/-- A configuration input whose file parses as a valid JSON object carrying
an empty thresholds section. -/
def emptyThresholdsInput : Option (Except PyStr CfgDoc) :=
  some (.ok (.obj none none (some emptyThresholdLookups)))

/-- The effective configuration the empty-thresholds document loads to. -/
def emptyThresholdsConfig : FullConfig :=
  { api_base_url := fullDefaultConfig.api_base_url
  , database := fullDefaultConfig.database
  , thresholds := emptyThresholdLookups }

/-- A category mapping whose issue corpus contains both a `slow` and a
`memory` keyword. -/
def demoTriggerCats : List CatResult :=
  [{ score := 0, max_score := 100, details := []
   , issues := ["DCF calculation too slow: 2500.00ms".toList,
                "High memory usage: 4096MB".toList] }]

lemma run_readiness_eq (cfg : Config) (w : World) :
    (run_assessment cfg w).readiness_score =
      readinessScoreOf ((pipelineCats cfg w).map (fun p => p.2)) := rfl

lemma run_critical_eq (cfg : Config) (w : World) :
    (run_assessment cfg w).critical_issues =
      (allIssuesOf ((pipelineCats cfg w).map (fun p => p.2))).filter (fun i => isCritical i) := rfl

lemma run_warnings_eq (cfg : Config) (w : World) :
    (run_assessment cfg w).warnings =
      (allIssuesOf ((pipelineCats cfg w).map (fun p => p.2))).filter
        (fun i => !(isCritical i)) := rfl

lemma run_status_eq (cfg : Config) (w : World) :
    (run_assessment cfg w).overall_status =
      statusOf (run_assessment cfg w).readiness_score (run_assessment cfg w).critical_issues := rfl

/-- C1: the overall status is decided from (readiness score, critical issues)
by the strict first-match policy — `READY` iff score ≥ 90 with an empty
critical list, else `READY_WITH_WARNINGS` iff score ≥ 70 with at most two
critical issues, else `NOT_READY`; with any critical issue the status is never
`READY`; and `run_assessment` applies exactly this policy to its aggregated
score and critical-issue list. -/
theorem claim1_status_policy :
    (∀ (s : Rat) (crit : List PyStr),
      (statusOf s crit = "READY".toList ↔ 90 ≤ s ∧ crit = []) ∧
      (statusOf s crit = "READY_WITH_WARNINGS".toList ↔
        ¬(90 ≤ s ∧ crit = []) ∧ (70 ≤ s ∧ crit.length ≤ 2)) ∧
      (statusOf s crit = "NOT_READY".toList ↔
        ¬(90 ≤ s ∧ crit = []) ∧ ¬(70 ≤ s ∧ crit.length ≤ 2)) ∧
      (crit ≠ [] → statusOf s crit ≠ "READY".toList)) ∧
    (∀ (cfg : Config) (w : World), (run_assessment cfg w).overall_status =
      statusOf (run_assessment cfg w).readiness_score (run_assessment cfg w).critical_issues) :=
  by
  constructor
  · intro s crit
    unfold statusOf
    split_ifs with h1 h2 <;>
      refine ⟨?_, ?_, ?_, ?_⟩ <;> simp_all
  · intro cfg w
    exact run_status_eq cfg w

/-- Closed instance of `claim1_status_policy`: a score of 95 with one critical
issue is not classified `READY`. -/
theorem claim1_status_policy_witness :
    statusOf 95 ["Database connection error: x".toList] ≠ "READY".toList :=
  (claim1_status_policy.1 95 ["Database connection error: x".toList]).2.2.2 (by decide)

/-- C2: the aggregated readiness score is 0 when the total maximum is zero
(no division error — the function is total), equals `100·Σscore/Σmax` under
rational division otherwise, stays within `[0, 100]` whenever every category
score is within its maximum, and is exactly what `run_assessment` stores. -/
theorem claim2_readiness_score (cats : List CatResult) :
    (catMaxTotal cats = 0 → readinessScoreOf cats = 0) ∧
    (catMaxTotal cats ≠ 0 →
      readinessScoreOf cats = 100 * (catTotal cats : Rat) / (catMaxTotal cats : Rat)) ∧
    ((∀ c ∈ cats, c.score ≤ c.max_score) →
      0 ≤ readinessScoreOf cats ∧ readinessScoreOf cats ≤ 100) ∧
    (∀ (cfg : Config) (w : World), (run_assessment cfg w).readiness_score =
      readinessScoreOf ((pipelineCats cfg w).map (fun p => p.2))) :=
  by
  refine ⟨?_, ?_, ?_, run_readiness_eq⟩
  · intro h
    simp [readinessScoreOf, h]
  · intro h
    rw [readinessScoreOf, if_pos (Nat.pos_of_ne_zero h)]
    ring
  · intro hb
    by_cases h : catMaxTotal cats = 0
    · simp [readinessScoreOf, h]
    · have hmpos : 0 < catMaxTotal cats := Nat.pos_of_ne_zero h
      have hts : catTotal cats ≤ catMaxTotal cats := by
        unfold catTotal catMaxTotal
        exact List.sum_le_sum (fun c _ => hb c (by assumption))
      rw [readinessScoreOf, if_pos hmpos]
      have hmq : (0 : Rat) < (catMaxTotal cats : Rat) := by exact_mod_cast hmpos
      constructor
      · positivity
      · have hdiv : (catTotal cats : Rat) / (catMaxTotal cats : Rat) ≤ 1 := by
          rw [div_le_one hmq]
          exact_mod_cast hts
        nlinarith

/-- Closed instance of `claim2_readiness_score`: the degenerate empty category
mapping (total maximum 0) yields score 0, and a half-scored category stays in
`[0, 100]`. -/
theorem claim2_readiness_score_witness :
    readinessScoreOf [] = 0 ∧
    (0 ≤ readinessScoreOf [{ score := 50, max_score := 100, details := [], issues := [] }] ∧
      readinessScoreOf [{ score := 50, max_score := 100, details := [], issues := [] }] ≤ 100) :=
  ⟨(claim2_readiness_score []).1 rfl,
   (claim2_readiness_score [{ score := 50, max_score := 100, details := [], issues := [] }]).2.2.1
     (by decide)⟩

lemma cqStage2_issues_mem {i : PyStr} (cov : Except PyStr Int) (r : CatResult)
    (h : i ∈ r.issues) : i ∈ (cqStage2 cov r).issues := by
  unfold cqStage2
  cases cov with
  | ok c =>
    by_cases hc : c = 0 <;> simp [hc, addScore, addDetail, addIssue, h]
  | error m => simp [addDetail, addIssue, h]

lemma cqStage3_issues_mem {i : PyStr} (sa : Except PyStr Int) (r : CatResult)
    (h : i ∈ r.issues) : i ∈ (cqStage3 sa r).issues := by
  unfold cqStage3
  cases sa with
  | ok c =>
    by_cases hc : c = 0 <;> simp [hc, addScore, addDetail, addIssue, h]
  | error m => simp [addDetail, addIssue, h]

lemma cqStage4_issues_mem {i : PyStr} (sec : Except PyStr Int) (r : CatResult)
    (h : i ∈ r.issues) : i ∈ (cqStage4 sec r).issues := by
  unfold cqStage4
  cases sec with
  | ok c =>
    by_cases hc : c = 0 <;> simp [hc, addScore, addDetail, addIssue, h]
  | error m => simp [addDetail, addIssue, h]

/-- C3: every issue lands in exactly one of the two partitions of
`run_assessment` — in `critical_issues` iff its lowercased text contains one
of the four keywords `critical`, `failed`, `error`, `not found` (substring
match), in `warnings` otherwise; and the issue `Backend tests failing`,
emitted whenever the backend-test process exits non-zero, is a warning, not
critical. -/
theorem claim3_issue_classification :
    (∀ (i : PyStr), isCritical i = true ↔
      ∃ kw ∈ criticalKeywords, subL kw (lowerL i) = true) ∧
    (∀ (cfg : Config) (w : World) (i : PyStr),
      (i ∈ (run_assessment cfg w).critical_issues ↔
        i ∈ allIssuesOf ((pipelineCats cfg w).map (fun p => p.2)) ∧ isCritical i = true) ∧
      (i ∈ (run_assessment cfg w).warnings ↔
        i ∈ allIssuesOf ((pipelineCats cfg w).map (fun p => p.2)) ∧ isCritical i = false) ∧
      ¬(i ∈ (run_assessment cfg w).critical_issues ∧ i ∈ (run_assessment cfg w).warnings)) ∧
    isCritical "Backend tests failing".toList = false ∧
    (∀ (w : CqWorld) (c : Int), w.backend = .ret c → c ≠ 0 →
      "Backend tests failing".toList ∈ (assess_code_quality w).issues) :=
  by
  refine ⟨?_, ?_, by decide, ?_⟩
  · intro i
    simp [isCritical, List.any_eq_true]
  · intro cfg w i
    rw [run_critical_eq, run_warnings_eq]
    refine ⟨List.mem_filter, ?_, ?_⟩
    · rw [List.mem_filter]
      simp
    · rw [List.mem_filter, List.mem_filter]
      rintro ⟨⟨-, h1⟩, -, h2⟩
      simp [h1] at h2
  · intro w c hb hc
    have h1 : "Backend tests failing".toList ∈ (cqStage1 w.backend initResult).issues := by
      rw [hb]
      simp [cqStage1, hc, addDetail, addIssue, initResult]
    exact cqStage4_issues_mem _ _ (cqStage3_issues_mem _ _ (cqStage2_issues_mem _ _ h1))

/-- Closed instance of `claim3_issue_classification`: with the backend tests
exiting 1 the warning issue `Backend tests failing` is emitted. -/
theorem claim3_issue_classification_witness :
    "Backend tests failing".toList ∈
      (assess_code_quality
        { backend := .ret 1, coverage := .ok 0, staticAnalysis := .ok 0, security := .ok 0 }).issues :=
  claim3_issue_classification.2.2.2
    { backend := .ret 1, coverage := .ok 0, staticAnalysis := .ok 0, security := .ok 0 }
    1 rfl (by decide)

@[simp] lemma addScore_score (r : CatResult) (n : Nat) : (addScore r n).score = r.score + n := rfl

@[simp] lemma addDetail_score (r : CatResult) (k v : PyStr) : (addDetail r k v).score = r.score := rfl

@[simp] lemma addIssue_score (r : CatResult) (i : PyStr) : (addIssue r i).score = r.score := rfl

@[simp] lemma addScore_max (r : CatResult) (n : Nat) : (addScore r n).max_score = r.max_score := rfl

@[simp] lemma addDetail_max (r : CatResult) (k v : PyStr) : (addDetail r k v).max_score = r.max_score := rfl

@[simp] lemma addIssue_max (r : CatResult) (i : PyStr) : (addIssue r i).max_score = r.max_score := rfl

@[simp] lemma addScore_issues (r : CatResult) (n : Nat) : (addScore r n).issues = r.issues := rfl

@[simp] lemma addDetail_issues (r : CatResult) (k v : PyStr) : (addDetail r k v).issues = r.issues := rfl

@[simp] lemma addIssue_issues (r : CatResult) (i : PyStr) : (addIssue r i).issues = r.issues ++ [i] := rfl

@[simp] lemma addScore_details (r : CatResult) (n : Nat) : (addScore r n).details = r.details := rfl

@[simp] lemma addDetail_details (r : CatResult) (k v : PyStr) :
    (addDetail r k v).details = r.details ++ [(k, v)] := rfl

@[simp] lemma addIssue_details (r : CatResult) (i : PyStr) : (addIssue r i).details = r.details := rfl

lemma cqStage1_score (b : ProcOutcome) (r : CatResult) :
    r.score ≤ (cqStage1 b r).score ∧ (cqStage1 b r).score ≤ r.score + 30 := by
  unfold cqStage1
  cases b with
  | ret c => by_cases hc : c = 0 <;> simp [hc]
  | timedOut => simp
  | err m => simp

lemma cqStage2_score (cov : Except PyStr Int) (r : CatResult) :
    r.score ≤ (cqStage2 cov r).score ∧ (cqStage2 cov r).score ≤ r.score + 20 := by
  unfold cqStage2
  cases cov with
  | ok c => by_cases hc : c = 0 <;> simp [hc]
  | error m => simp

lemma cqStage3_score (sa : Except PyStr Int) (r : CatResult) :
    r.score ≤ (cqStage3 sa r).score ∧ (cqStage3 sa r).score ≤ r.score + 25 := by
  unfold cqStage3
  cases sa with
  | ok c => by_cases hc : c = 0 <;> simp [hc]
  | error m => simp

lemma cqStage4_score (sec : Except PyStr Int) (r : CatResult) :
    r.score ≤ (cqStage4 sec r).score ∧ (cqStage4 sec r).score ≤ r.score + 25 := by
  unfold cqStage4
  cases sec with
  | ok c => by_cases hc : c = 0 <;> simp [hc]
  | error m => simp

lemma apiStage1_score (h : HttpResult) (r : CatResult) :
    r.score ≤ (apiStage1 h r).score ∧ (apiStage1 h r).score ≤ r.score + 25 := by
  unfold apiStage1
  cases h with
  | resp status body => by_cases hs : status = 200 <;> simp [hs]
  | exc m => simp

lemma apiStage2_score (f : HttpResult) (r : CatResult) :
    r.score ≤ (apiStage2 f r).score ∧ (apiStage2 f r).score ≤ r.score + 50 := by
  unfold apiStage2
  cases f with
  | resp status body =>
    by_cases hs : status = 200 <;> simp [hs] <;> split_ifs <;> simp <;> omega
  | exc m => simp

lemma apiStage3_score (cfg : Config) (d : HttpResult) (tMs : Rat) (r : CatResult) :
    r.score ≤ (apiStage3 cfg d tMs r).score ∧ (apiStage3 cfg d tMs r).score ≤ r.score + 25 := by
  unfold apiStage3
  cases d with
  | resp status body => by_cases hs : status = 200 <;> simp [hs] <;> split_ifs <;> simp
  | exc m => simp

lemma sysStage1_score (cfg : Config) (w : SysWorld) (r : CatResult) :
    r.score ≤ (sysStage1 cfg w r).score ∧ (sysStage1 cfg w r).score ≤ r.score + 40 := by
  unfold sysStage1
  dsimp only
  repeat' split
  all_goals simp_all


lemma sysStage2_score (w : SysWorld) (r : CatResult) :
    r.score ≤ (sysStage2 w r).score ∧ (sysStage2 w r).score ≤ r.score + 30 := by
  unfold sysStage2
  dsimp only
  repeat' split
  all_goals simp_all


lemma sysStage3_score (w : SysWorld) (r : CatResult) :
    r.score ≤ (sysStage3 w r).score ∧ (sysStage3 w r).score ≤ r.score + 30 := by
  unfold sysStage3
  repeat' split
  all_goals simp_all


lemma dbStage1_score (w : DbWorld) (s : DbState) :
    s.1.score ≤ (dbStage1 w s).1.score ∧ (dbStage1 w s).1.score ≤ s.1.score + 20 := by
  obtain ⟨r, e⟩ := s
  unfold dbStage1
  repeat' split
  all_goals simp_all


lemma dbStage2_score (w : DbWorld) (s : DbState) :
    s.1.score ≤ (dbStage2 w s).1.score ∧ (dbStage2 w s).1.score ≤ s.1.score + 30 := by
  obtain ⟨r, e⟩ := s
  unfold dbStage2
  dsimp only
  repeat' split
  all_goals simp_all


lemma dbStage3_score (w : DbWorld) (s : DbState) :
    s.1.score ≤ (dbStage3 w s).1.score ∧ (dbStage3 w s).1.score ≤ s.1.score + 25 := by
  obtain ⟨r, e⟩ := s
  unfold dbStage3
  dsimp only
  repeat' split
  all_goals simp_all


lemma dbStage4_score (cfg : Config) (w : DbWorld) (s : DbState) :
    s.1.score ≤ (dbStage4 cfg w s).1.score ∧ (dbStage4 cfg w s).1.score ≤ s.1.score + 25 := by
  obtain ⟨r, e⟩ := s
  unfold dbStage4
  dsimp only
  repeat' split
  all_goals simp_all


lemma dbFinal_score (s : DbState) : (dbFinal s).score = s.1.score := by
  obtain ⟨r, e⟩ := s
  unfold dbFinal
  cases e with
  | none => simp
  | some e => cases e <;> simp

lemma cqStage1_max (b : ProcOutcome) (r : CatResult) : (cqStage1 b r).max_score = r.max_score := by
  unfold cqStage1
  repeat' split
  all_goals simp_all

lemma cqStage2_max (cov : Except PyStr Int) (r : CatResult) :
    (cqStage2 cov r).max_score = r.max_score := by
  unfold cqStage2
  repeat' split
  all_goals simp_all

lemma cqStage3_max (sa : Except PyStr Int) (r : CatResult) :
    (cqStage3 sa r).max_score = r.max_score := by
  unfold cqStage3
  repeat' split
  all_goals simp_all

lemma cqStage4_max (sec : Except PyStr Int) (r : CatResult) :
    (cqStage4 sec r).max_score = r.max_score := by
  unfold cqStage4
  repeat' split
  all_goals simp_all

lemma apiStage1_max (h : HttpResult) (r : CatResult) : (apiStage1 h r).max_score = r.max_score := by
  unfold apiStage1
  repeat' split
  all_goals simp_all

lemma apiStage2_max (f : HttpResult) (r : CatResult) : (apiStage2 f r).max_score = r.max_score := by
  unfold apiStage2
  dsimp only
  repeat' split
  all_goals simp_all

lemma apiStage3_max (cfg : Config) (d : HttpResult) (tMs : Rat) (r : CatResult) :
    (apiStage3 cfg d tMs r).max_score = r.max_score := by
  unfold apiStage3
  repeat' split
  all_goals simp_all

lemma sysStage1_max (cfg : Config) (w : SysWorld) (r : CatResult) :
    (sysStage1 cfg w r).max_score = r.max_score := by
  unfold sysStage1
  dsimp only
  repeat' split
  all_goals simp_all

lemma sysStage2_max (w : SysWorld) (r : CatResult) : (sysStage2 w r).max_score = r.max_score := by
  unfold sysStage2
  dsimp only
  repeat' split
  all_goals simp_all

lemma sysStage3_max (w : SysWorld) (r : CatResult) : (sysStage3 w r).max_score = r.max_score := by
  unfold sysStage3
  repeat' split
  all_goals simp_all

lemma dbStage1_max (w : DbWorld) (s : DbState) : (dbStage1 w s).1.max_score = s.1.max_score := by
  obtain ⟨r, e⟩ := s
  unfold dbStage1
  repeat' split
  all_goals simp_all

lemma dbStage2_max (w : DbWorld) (s : DbState) : (dbStage2 w s).1.max_score = s.1.max_score := by
  obtain ⟨r, e⟩ := s
  unfold dbStage2
  dsimp only
  repeat' split
  all_goals simp_all

lemma dbStage3_max (w : DbWorld) (s : DbState) : (dbStage3 w s).1.max_score = s.1.max_score := by
  obtain ⟨r, e⟩ := s
  unfold dbStage3
  dsimp only
  repeat' split
  all_goals simp_all

lemma dbStage4_max (cfg : Config) (w : DbWorld) (s : DbState) :
    (dbStage4 cfg w s).1.max_score = s.1.max_score := by
  obtain ⟨r, e⟩ := s
  unfold dbStage4
  dsimp only
  repeat' split
  all_goals simp_all

lemma dbFinal_max (s : DbState) : (dbFinal s).max_score = s.1.max_score := by
  obtain ⟨r, e⟩ := s
  unfold dbFinal
  repeat' split
  all_goals simp_all

lemma assess_code_quality_max (w : CqWorld) : (assess_code_quality w).max_score = 100 := by
  unfold assess_code_quality
  rw [cqStage4_max, cqStage3_max, cqStage2_max, cqStage1_max]
  rfl

lemma assess_database_readiness_max (cfg : Config) (w : DbWorld) :
    (assess_database_readiness cfg w).max_score = 100 := by
  unfold assess_database_readiness
  rw [dbFinal_max, dbStage4_max, dbStage3_max, dbStage2_max, dbStage1_max]
  rfl

lemma assess_api_readiness_max (cfg : Config) (w : ApiWorld) :
    (assess_api_readiness cfg w).max_score = 100 := by
  unfold assess_api_readiness
  rw [apiStage3_max, apiStage2_max, apiStage1_max]
  rfl

lemma assess_system_resources_max (cfg : Config) (w : SysWorld) :
    (assess_system_resources cfg w).max_score = 100 := by
  unfold assess_system_resources
  rw [sysStage3_max, sysStage2_max, sysStage1_max]
  rfl

lemma assess_code_quality_le (w : CqWorld) : (assess_code_quality w).score ≤ 100 := by
  have h1 := cqStage1_score w.backend initResult
  have h2 := cqStage2_score w.coverage (cqStage1 w.backend initResult)
  have h3 := cqStage3_score w.staticAnalysis (cqStage2 w.coverage (cqStage1 w.backend initResult))
  have h4 := cqStage4_score w.security
    (cqStage3 w.staticAnalysis (cqStage2 w.coverage (cqStage1 w.backend initResult)))
  have h0 : initResult.score = 0 := rfl
  unfold assess_code_quality
  omega

lemma assess_database_readiness_le (cfg : Config) (w : DbWorld) :
    (assess_database_readiness cfg w).score ≤ 100 := by
  have h1 := dbStage1_score w (initResult, none)
  have h2 := dbStage2_score w (dbStage1 w (initResult, none))
  have h3 := dbStage3_score w (dbStage2 w (dbStage1 w (initResult, none)))
  have h4 := dbStage4_score cfg w (dbStage3 w (dbStage2 w (dbStage1 w (initResult, none))))
  have h5 := dbFinal_score (dbStage4 cfg w (dbStage3 w (dbStage2 w (dbStage1 w (initResult, none)))))
  have h0 : (initResult, (none : Option DbErr)).1.score = 0 := rfl
  unfold assess_database_readiness
  omega

lemma assess_api_readiness_le (cfg : Config) (w : ApiWorld) :
    (assess_api_readiness cfg w).score ≤ 100 := by
  have h1 := apiStage1_score w.health initResult
  have h2 := apiStage2_score w.financial (apiStage1 w.health initResult)
  have h3 := apiStage3_score cfg w.dcf w.dcfTimeMs
    (apiStage2 w.financial (apiStage1 w.health initResult))
  have h0 : initResult.score = 0 := rfl
  unfold assess_api_readiness
  omega

lemma assess_system_resources_le (cfg : Config) (w : SysWorld) :
    (assess_system_resources cfg w).score ≤ 100 := by
  have h1 := sysStage1_score cfg w initResult
  have h2 := sysStage2_score w (sysStage1 cfg w initResult)
  have h3 := sysStage3_score w (sysStage2 w (sysStage1 cfg w initResult))
  have h0 : initResult.score = 0 := rfl
  unfold assess_system_resources
  omega

/-- C9: every category result of every assessor satisfies
`score ≤ max_score = 100` (with `score : Nat`, so `0 ≤ score` holds by type),
for every possible sequence of probe outcomes — including all-success runs —
and within each assessor every probe stage only ever increases the
accumulated score. -/
theorem claim9_score_invariant :
    (∀ (w : CqWorld), (assess_code_quality w).score ≤ (assess_code_quality w).max_score ∧
      (assess_code_quality w).max_score = 100) ∧
    (∀ (cfg : Config) (w : DbWorld),
      (assess_database_readiness cfg w).score ≤ (assess_database_readiness cfg w).max_score ∧
      (assess_database_readiness cfg w).max_score = 100) ∧
    (∀ (cfg : Config) (w : ApiWorld),
      (assess_api_readiness cfg w).score ≤ (assess_api_readiness cfg w).max_score ∧
      (assess_api_readiness cfg w).max_score = 100) ∧
    (∀ (cfg : Config) (w : SysWorld),
      (assess_system_resources cfg w).score ≤ (assess_system_resources cfg w).max_score ∧
      (assess_system_resources cfg w).max_score = 100) ∧
    (∀ (b : ProcOutcome) (x : Except PyStr Int) (r : CatResult),
      r.score ≤ (cqStage1 b r).score ∧ r.score ≤ (cqStage2 x r).score ∧
      r.score ≤ (cqStage3 x r).score ∧ r.score ≤ (cqStage4 x r).score) ∧
    (∀ (cfg : Config) (w : DbWorld) (s : DbState),
      s.1.score ≤ (dbStage1 w s).1.score ∧ s.1.score ≤ (dbStage2 w s).1.score ∧
      s.1.score ≤ (dbStage3 w s).1.score ∧ s.1.score ≤ (dbStage4 cfg w s).1.score ∧
      (dbFinal s).score = s.1.score) ∧
    (∀ (cfg : Config) (h : HttpResult) (t : Rat) (r : CatResult),
      r.score ≤ (apiStage1 h r).score ∧ r.score ≤ (apiStage2 h r).score ∧
      r.score ≤ (apiStage3 cfg h t r).score) ∧
    (∀ (cfg : Config) (w : SysWorld) (r : CatResult),
      r.score ≤ (sysStage1 cfg w r).score ∧ r.score ≤ (sysStage2 w r).score ∧
      r.score ≤ (sysStage3 w r).score) :=
  by
  refine ⟨?_, ?_, ?_, ?_, ?_, ?_, ?_, ?_⟩
  · intro w
    rw [assess_code_quality_max]
    exact ⟨assess_code_quality_le w, rfl⟩
  · intro cfg w
    rw [assess_database_readiness_max]
    exact ⟨assess_database_readiness_le cfg w, rfl⟩
  · intro cfg w
    rw [assess_api_readiness_max]
    exact ⟨assess_api_readiness_le cfg w, rfl⟩
  · intro cfg w
    rw [assess_system_resources_max]
    exact ⟨assess_system_resources_le cfg w, rfl⟩
  · exact fun b x r => ⟨(cqStage1_score b r).1, (cqStage2_score x r).1,
      (cqStage3_score x r).1, (cqStage4_score x r).1⟩
  · exact fun cfg w s => ⟨(dbStage1_score w s).1, (dbStage2_score w s).1,
      (dbStage3_score w s).1, (dbStage4_score cfg w s).1, dbFinal_score s⟩
  · exact fun cfg h t r => ⟨(apiStage1_score h r).1, (apiStage2_score h r).1,
      (apiStage3_score cfg h t r).1⟩
  · exact fun cfg w r => ⟨(sysStage1_score cfg w r).1, (sysStage2_score w r).1,
      (sysStage3_score w r).1⟩

lemma cqPerfect_score : (assess_code_quality cqPerfect).score = 100 := by decide

lemma cqPerfect_issues : (assess_code_quality cqPerfect).issues = [] := by decide

lemma dbPerfect_score : (assess_database_readiness defaultConfig dbPerfect).score = 100 := by decide

lemma dbPerfect_issues : (assess_database_readiness defaultConfig dbPerfect).issues = [] := by decide

lemma apiPerfect_score : (assess_api_readiness defaultConfig apiPerfect).score = 100 := by decide

lemma apiPerfect_issues : (assess_api_readiness defaultConfig apiPerfect).issues = [] := by decide

lemma sysPerfect_score : (assess_system_resources defaultConfig sysPerfect).score = 100 := by decide

lemma sysPerfect_issues : (assess_system_resources defaultConfig sysPerfect).issues = [] := by decide

lemma startsL_append {n a : PyStr} (b : PyStr) (h : startsL n a = true) :
    startsL n (a ++ b) = true := by
  induction n generalizing a with
  | nil => simp [startsL]
  | cons c cs ih =>
    cases a with
    | nil => simp [startsL] at h
    | cons d ds =>
      simp only [List.cons_append, startsL, Bool.and_eq_true] at h ⊢
      exact ⟨h.1, ih h.2⟩

lemma subL_append_left {n a : PyStr} (b : PyStr) (h : subL n a = true) :
    subL n (a ++ b) = true := by
  induction a with
  | nil =>
    cases n with
    | nil => simp [subL]
    | cons c cs => simp [subL] at h
  | cons d ds ih =>
    cases n with
    | nil => simp [subL]
    | cons c cs =>
      simp only [subL, Bool.or_eq_true] at h
      rcases h with h | h
      · simp only [List.cons_append, subL, Bool.or_eq_true]
        exact Or.inl (startsL_append b h)
      · simp only [List.cons_append, subL, Bool.or_eq_true]
        exact Or.inr (ih h)

lemma lowerL_append (a b : PyStr) : lowerL (a ++ b) = lowerL a ++ lowerL b := by
  simp [lowerL]

lemma isCritical_dbconn (m : PyStr) :
    isCritical ("Database connection error: ".toList ++ m) = true := by
  have h : subL "error".toList (lowerL ("Database connection error: ".toList ++ m)) = true := by
    rw [lowerL_append]
    exact subL_append_left _ (by decide)
  rw [isCritical, List.any_eq_true]
  exact ⟨"error".toList, by decide, h⟩

lemma dbConnFail_eval (m : PyStr) :
    assess_database_readiness defaultConfig (dbConnFail m) =
      { score := 0, max_score := 100
      , details := [("database_error".toList, m)]
      , issues := [("Database connection error: ".toList ++ m)] } := by
  simp [assess_database_readiness, dbStage1, dbStage2, dbStage3, dbStage4, dbFinal,
        dbConnFail, addIssue, addDetail, initResult]

lemma pipeline_maxTotal (cfg : Config) (w : World) :
    catMaxTotal ((pipelineCats cfg w).map (fun p => p.2)) = 400 := by
  simp [catMaxTotal, pipelineCats, assess_code_quality_max, assess_database_readiness_max,
        assess_api_readiness_max, assess_system_resources_max]

lemma run_recs_eq (cfg : Config) (w : World) :
    (run_assessment cfg w).recommendations =
      ((generate_recommendations ((pipelineCats cfg w).map (fun p => p.2))).toOption).getD [] :=
  rfl

lemma statusOf_ready {s : Rat} {crit : List PyStr} (h1 : 90 ≤ s) (h2 : crit = []) :
    statusOf s crit = "READY".toList := by
  unfold statusOf
  rw [if_pos ⟨h1, h2⟩]

lemma statusOf_rww {s : Rat} {crit : List PyStr} (h1 : ¬(90 ≤ s ∧ crit = []))
    (h2 : 70 ≤ s) (h3 : crit.length ≤ 2) :
    statusOf s crit = "READY_WITH_WARNINGS".toList := by
  unfold statusOf
  rw [if_neg h1, if_pos ⟨h2, h3⟩]

lemma perfect_total :
    catTotal ((pipelineCats defaultConfig perfectWorld).map (fun p => p.2)) = 400 := by
  simp [catTotal, pipelineCats, perfectWorld, cqPerfect_score, dbPerfect_score,
        apiPerfect_score, sysPerfect_score]

lemma perfect_issues :
    allIssuesOf ((pipelineCats defaultConfig perfectWorld).map (fun p => p.2)) = [] := by
  simp [allIssuesOf, pipelineCats, perfectWorld, cqPerfect_issues, dbPerfect_issues,
        apiPerfect_issues, sysPerfect_issues]

lemma run_rs_frac (cfg : Config) (w : World) :
    (run_assessment cfg w).readiness_score =
      ((catTotal ((pipelineCats cfg w).map (fun p => p.2)) : Rat) / 400) * 100 := by
  rw [run_readiness_eq]
  simp only [readinessScoreOf, pipeline_maxTotal]
  norm_num

lemma perfect_rs : (run_assessment defaultConfig perfectWorld).readiness_score = 100 := by
  rw [run_rs_frac, perfect_total]
  norm_num

lemma perfect_crit : (run_assessment defaultConfig perfectWorld).critical_issues = [] := by
  rw [run_critical_eq, perfect_issues]
  rfl

lemma perfect_status :
    (run_assessment defaultConfig perfectWorld).overall_status = "READY".toList := by
  rw [run_status_eq, perfect_rs, perfect_crit]
  exact statusOf_ready (by norm_num) rfl

lemma perfect_recs :
    (run_assessment defaultConfig perfectWorld).recommendations =
      ["✅ System is ready for deployment".toList,
       "Proceed with deployment checklist".toList] := by
  rw [run_recs_eq]
  simp only [generate_recommendations, perfect_total, pipeline_maxTotal, perfect_issues]
  norm_num
  rfl

lemma dbOutage_issues (m : PyStr) :
    allIssuesOf ((pipelineCats defaultConfig (dbOutageWorld m)).map (fun p => p.2)) =
      [("Database connection error: ".toList ++ m)] := by
  simp [allIssuesOf, pipelineCats, dbOutageWorld, perfectWorld, dbConnFail_eval,
        cqPerfect_issues, apiPerfect_issues, sysPerfect_issues]

lemma dbOutage_total (m : PyStr) :
    catTotal ((pipelineCats defaultConfig (dbOutageWorld m)).map (fun p => p.2)) = 300 := by
  simp [catTotal, pipelineCats, dbOutageWorld, perfectWorld, dbConnFail_eval,
        cqPerfect_score, apiPerfect_score, sysPerfect_score]

lemma dbOutage_rs (m : PyStr) :
    (run_assessment defaultConfig (dbOutageWorld m)).readiness_score = 75 := by
  rw [run_rs_frac, dbOutage_total]
  norm_num

lemma dbOutage_crit (m : PyStr) :
    (run_assessment defaultConfig (dbOutageWorld m)).critical_issues =
      [("Database connection error: ".toList ++ m)] := by
  rw [run_critical_eq, dbOutage_issues]
  rw [List.filter_cons_of_pos (isCritical_dbconn m), List.filter_nil]

/-- C10: if the very first database call (`mysql.connector.connect`) raises a
database error with message `m`, the database category scores 0 with exactly
one details entry (keyed `database_error`) and exactly one issue, which starts
with `Database connection error: ` and is therefore classified critical; with
the other three categories perfect the run scores 75.0 overall, has exactly
that one critical issue, and lands on `READY_WITH_WARNINGS`. -/
theorem claim10_database_outage :
    (∀ (cfg : Config) (w : DbWorld) (m : PyStr), w.connect = some (.dbError m) →
      assess_database_readiness cfg w =
        { score := 0, max_score := 100
        , details := [("database_error".toList, m)]
        , issues := [("Database connection error: ".toList ++ m)] } ∧
      isCritical ("Database connection error: ".toList ++ m) = true) ∧
    (∀ (m : PyStr),
      (run_assessment defaultConfig (dbOutageWorld m)).readiness_score = 75 ∧
      (run_assessment defaultConfig (dbOutageWorld m)).critical_issues =
        [("Database connection error: ".toList ++ m)] ∧
      (run_assessment defaultConfig (dbOutageWorld m)).warnings = [] ∧
      (run_assessment defaultConfig (dbOutageWorld m)).overall_status =
        "READY_WITH_WARNINGS".toList) :=
  by
  constructor
  · intro cfg w m hc
    refine ⟨?_, isCritical_dbconn m⟩
    simp [assess_database_readiness, dbStage1, dbStage2, dbStage3, dbStage4, dbFinal,
          hc, addIssue, addDetail, initResult]
  · intro m
    refine ⟨dbOutage_rs m, dbOutage_crit m, ?_, ?_⟩
    · rw [run_warnings_eq, dbOutage_issues]
      rw [List.filter_cons_of_neg (by
        show ¬((!isCritical ("Database connection error: ".toList ++ m)) = true)
        rw [isCritical_dbconn m]
        decide), List.filter_nil]
    · rw [run_status_eq, dbOutage_rs, dbOutage_crit]
      refine statusOf_rww ?_ (by norm_num) (by simp)
      rintro ⟨h90, -⟩
      norm_num at h90

/-- Closed instance of `claim10_database_outage` at the concrete connect-time
error message `boom`. -/
theorem claim10_database_outage_witness :
    assess_database_readiness defaultConfig (dbConnFail "boom".toList) =
      { score := 0, max_score := 100
      , details := [("database_error".toList, "boom".toList)]
      , issues := [("Database connection error: ".toList ++ "boom".toList)] } :=
  (claim10_database_outage.1 defaultConfig (dbConnFail "boom".toList) "boom".toList rfl).1

lemma frac90 (x : Rat) : (9 : Rat) / 10 ≤ x ↔ 90 ≤ x * 100 := by
  constructor <;> intro h <;> nlinarith

lemma frac70 (x : Rat) : (7 : Rat) / 10 ≤ x ↔ 70 ≤ x * 100 := by
  constructor <;> intro h <;> nlinarith

lemma run_recs_head (cfg : Config) (w : World) :
    (run_assessment cfg w).recommendations.head? = some (
      if (9 : Rat) / 10 ≤ (catTotal ((pipelineCats cfg w).map (fun p => p.2)) : Rat) / 400 then
        "✅ System is ready for deployment".toList
      else if (7 : Rat) / 10 ≤ (catTotal ((pipelineCats cfg w).map (fun p => p.2)) : Rat) / 400 then
        "⚠️ System has minor issues but may proceed with caution".toList
      else "❌ System is not ready for deployment".toList) := by
  rw [run_recs_eq]
  simp only [generate_recommendations, pipeline_maxTotal]
  norm_num
  split_ifs <;> rfl

lemma healthDown_total :
    catTotal ((pipelineCats defaultConfig healthDownWorld).map (fun p => p.2)) = 375 := by
  decide

lemma healthDown_rs :
    (run_assessment defaultConfig healthDownWorld).readiness_score = 375 / 4 := by
  rw [run_rs_frac, healthDown_total]
  norm_num

lemma healthDown_crit :
    (run_assessment defaultConfig healthDownWorld).critical_issues =
      ["Health check error: connection refused".toList] := by
  rw [run_critical_eq]
  decide

/-- Counterexample for C5: with every probe perfect except a raising health
endpoint, the run scores 93.75 with one critical issue, so its status is
`READY_WITH_WARNINGS`, yet the recommendation list opens with the `READY`
line — the opening tracks the raw score fraction, not the status tier. -/
theorem claim5_counterexample :
    (run_assessment defaultConfig healthDownWorld).overall_status =
      "READY_WITH_WARNINGS".toList ∧
    (run_assessment defaultConfig healthDownWorld).recommendations.head? =
      some "✅ System is ready for deployment".toList :=
  by
  constructor
  · rw [run_status_eq, healthDown_rs, healthDown_crit]
    refine statusOf_rww ?_ (by norm_num) (by simp)
    rintro ⟨-, h⟩
    simp at h
  · rw [run_recs_head, healthDown_total]
    norm_num

/-- C5 (amended): the recommendation list is a deterministic function of the
score fraction and the issue set, but its opening statement tracks the score
fraction alone — the `READY` opening appears iff `readiness_score ≥ 90`, the
`READY_WITH_WARNINGS` opening iff `70 ≤ readiness_score < 90`, the `NOT_READY`
opening otherwise — so it can disagree with the final status tier when
critical issues demote the status; on the all-perfect run the list is exactly
the `READY` opening plus its standing follow-up, with no trigger additions. -/
theorem claim5_recommendation_opening :
    (∀ (cfg : Config) (w : World),
      ((run_assessment cfg w).recommendations.head? =
          some "✅ System is ready for deployment".toList ↔
        90 ≤ (run_assessment cfg w).readiness_score) ∧
      ((run_assessment cfg w).recommendations.head? =
          some "⚠️ System has minor issues but may proceed with caution".toList ↔
        (70 ≤ (run_assessment cfg w).readiness_score ∧
          ¬ 90 ≤ (run_assessment cfg w).readiness_score)) ∧
      ((run_assessment cfg w).recommendations.head? =
          some "❌ System is not ready for deployment".toList ↔
        ¬ 70 ≤ (run_assessment cfg w).readiness_score)) ∧
    ((run_assessment defaultConfig perfectWorld).readiness_score = 100 ∧
      (run_assessment defaultConfig perfectWorld).overall_status = "READY".toList ∧
      (run_assessment defaultConfig perfectWorld).recommendations =
        ["✅ System is ready for deployment".toList,
         "Proceed with deployment checklist".toList] ∧
      (run_assessment defaultConfig perfectWorld).critical_issues = []) :=
  by
  refine ⟨?_, perfect_rs, perfect_status, perfect_recs, perfect_crit⟩
  intro cfg w
  rw [run_recs_head, run_rs_frac]
  set x : Rat := (catTotal ((pipelineCats cfg w).map (fun p => p.2)) : Rat) / 400 with hx
  split_ifs with h1 h2
  · refine ⟨iff_of_true rfl ((frac90 x).mp h1), ?_, ?_⟩
    · exact iff_of_false (by decide) (fun h => h.2 ((frac90 x).mp h1))
    · exact iff_of_false (by decide)
        (fun h => h ((frac70 x).mp (by linarith)))
  · refine ⟨?_, ?_, ?_⟩
    · exact iff_of_false (by decide) (fun h => h1 ((frac90 x).mpr h))
    · exact iff_of_true rfl ⟨(frac70 x).mp h2, fun h => h1 ((frac90 x).mpr h)⟩
    · exact iff_of_false (by decide) (fun h => h ((frac70 x).mp h2))
  · refine ⟨?_, ?_, ?_⟩
    · exact iff_of_false (by decide) (fun h => h1 ((frac90 x).mpr h))
    · exact iff_of_false (by decide) (fun h => h2 ((frac70 x).mpr h.1))
    · exact iff_of_true rfl (fun h => h2 ((frac70 x).mpr h))

/-- Closed instance of `claim5_recommendation_opening`: the perfect run opens
with the `READY` line. -/
theorem claim5_recommendation_opening_witness :
    (run_assessment defaultConfig perfectWorld).recommendations.head? =
      some "✅ System is ready for deployment".toList :=
  ((claim5_recommendation_opening.1 defaultConfig perfectWorld).1).mpr
    (by rw [perfect_rs]; norm_num)

lemma genRec_ok (cats : List CatResult) (h : catMaxTotal cats ≠ 0) :
    ∃ l, generate_recommendations cats = .ok l := by
  simp only [generate_recommendations, if_neg h]
  exact ⟨_, rfl⟩

lemma genRec_pipeline_ok (cfg : Config) (w : World) :
    ∃ l, generate_recommendations ((pipelineCats cfg w).map (fun p => p.2)) = .ok l :=
  genRec_ok _ (by rw [pipeline_maxTotal]; omega)

/-- C8: each of the four keyword triggers — `test`, `performance`/`slow`,
`memory`, `database` — is evaluated independently against the full issue
corpus (case-insensitive substring), and each trigger present appends its
fixed block of recommendations without suppressing any other; in particular,
an issue set containing both a `slow` and a `memory` keyword yields both
blocks. -/
theorem claim8_recommendation_triggers :
    ∀ (cats : List CatResult) (recs : List PyStr),
      generate_recommendations cats = .ok recs →
      ((∃ i ∈ allIssuesOf cats, subL "test".toList (lowerL i) = true) →
        "Fix failing tests before deployment".toList ∈ recs) ∧
      ((∃ i ∈ allIssuesOf cats, subL "performance".toList (lowerL i) = true ∨
          subL "slow".toList (lowerL i) = true) →
        "Optimize performance before deployment".toList ∈ recs ∧
        "Consider load testing with BigDecimal operations".toList ∈ recs) ∧
      ((∃ i ∈ allIssuesOf cats, subL "memory".toList (lowerL i) = true) →
        "Monitor memory usage closely during deployment".toList ∈ recs ∧
        "Consider increasing JVM heap size".toList ∈ recs) ∧
      ((∃ i ∈ allIssuesOf cats, subL "database".toList (lowerL i) = true) →
        "Verify database migration scripts".toList ∈ recs ∧
        "Ensure database backup is current".toList ∈ recs) ∧
      (((∃ i ∈ allIssuesOf cats, subL "slow".toList (lowerL i) = true) ∧
        (∃ i ∈ allIssuesOf cats, subL "memory".toList (lowerL i) = true)) →
        "Optimize performance before deployment".toList ∈ recs ∧
        "Consider load testing with BigDecimal operations".toList ∈ recs ∧
        "Monitor memory usage closely during deployment".toList ∈ recs ∧
        "Consider increasing JVM heap size".toList ∈ recs) :=
  by
  intro cats recs h
  by_cases hm : catMaxTotal cats = 0
  · simp only [generate_recommendations, if_pos hm] at h
    cases h
  · simp only [generate_recommendations, if_neg hm, Except.ok.injEq] at h
    subst h
    refine ⟨?_, ?_, ?_, ?_, ?_⟩
    · rintro ⟨i, hi, hp⟩
      have hA : (allIssuesOf cats).any (fun i => subL "test".toList (lowerL i)) = true :=
        List.any_eq_true.mpr ⟨i, hi, hp⟩
      rw [if_pos hA]
      simp [List.mem_append]
    · rintro ⟨i, hi, hp⟩
      have hA : (allIssuesOf cats).any
          (fun i => subL "performance".toList (lowerL i) || subL "slow".toList (lowerL i)) = true :=
        List.any_eq_true.mpr ⟨i, hi, Bool.or_eq_true _ _ |>.mpr hp⟩
      rw [if_pos hA]
      constructor <;> simp [List.mem_append]
    · rintro ⟨i, hi, hp⟩
      have hA : (allIssuesOf cats).any (fun i => subL "memory".toList (lowerL i)) = true :=
        List.any_eq_true.mpr ⟨i, hi, hp⟩
      rw [if_pos hA]
      constructor <;> simp [List.mem_append]
    · rintro ⟨i, hi, hp⟩
      have hA : (allIssuesOf cats).any (fun i => subL "database".toList (lowerL i)) = true :=
        List.any_eq_true.mpr ⟨i, hi, hp⟩
      rw [if_pos hA]
      constructor <;> simp [List.mem_append]
    · rintro ⟨⟨i, hi, hp⟩, ⟨j, hj, hq⟩⟩
      have hA : (allIssuesOf cats).any
          (fun i => subL "performance".toList (lowerL i) || subL "slow".toList (lowerL i)) = true :=
        List.any_eq_true.mpr ⟨i, hi, Bool.or_eq_true _ _ |>.mpr (Or.inr hp)⟩
      have hB : (allIssuesOf cats).any (fun i => subL "memory".toList (lowerL i)) = true :=
        List.any_eq_true.mpr ⟨j, hj, hq⟩
      rw [if_pos hA, if_pos hB]
      refine ⟨?_, ?_, ?_, ?_⟩ <;> simp [List.mem_append]

/-- Closed instance of `claim8_recommendation_triggers`: an issue corpus with
both a `slow` and a `memory` issue receives both trigger blocks. -/
theorem claim8_recommendation_triggers_witness :
    ∃ recs, generate_recommendations demoTriggerCats = Except.ok recs ∧
      "Optimize performance before deployment".toList ∈ recs ∧
      "Consider load testing with BigDecimal operations".toList ∈ recs ∧
      "Monitor memory usage closely during deployment".toList ∈ recs ∧
      "Consider increasing JVM heap size".toList ∈ recs :=
  by
  obtain ⟨recs, hr⟩ := genRec_ok demoTriggerCats (by decide)
  obtain ⟨h1, h2, h3, h4⟩ :=
    (claim8_recommendation_triggers demoTriggerCats recs hr).2.2.2.2 ⟨by decide, by decide⟩
  exact ⟨recs, hr, h1, h2, h3, h4⟩

lemma cqStage1_keys (b : ProcOutcome) (r : CatResult) :
    (cqStage1 b r).details.map Prod.fst = r.details.map Prod.fst ++ ["backend_tests".toList] := by
  unfold cqStage1
  repeat' split
  all_goals simp

lemma cqStage2_keys (cov : Except PyStr Int) (r : CatResult) :
    (cqStage2 cov r).details.map Prod.fst = r.details.map Prod.fst ++ ["test_coverage".toList] := by
  unfold cqStage2
  repeat' split
  all_goals simp

lemma cqStage3_keys (sa : Except PyStr Int) (r : CatResult) :
    (cqStage3 sa r).details.map Prod.fst =
      r.details.map Prod.fst ++ ["static_analysis".toList] := by
  unfold cqStage3
  repeat' split
  all_goals simp

lemma cqStage4_keys (sec : Except PyStr Int) (r : CatResult) :
    (cqStage4 sec r).details.map Prod.fst = r.details.map Prod.fst ++ ["security_scan".toList] := by
  unfold cqStage4
  repeat' split
  all_goals simp

lemma apiStage1_keys (h : HttpResult) (r : CatResult) :
    (apiStage1 h r).details.map Prod.fst = r.details.map Prod.fst ++ ["health_check".toList] := by
  unfold apiStage1
  repeat' split
  all_goals simp

lemma apiStage2_keys (f : HttpResult) (r : CatResult) :
    (apiStage2 f r).details.map Prod.fst =
        r.details.map Prod.fst ++ ["serialization".toList, "decimal_format".toList] ∨
      (apiStage2 f r).details.map Prod.fst =
        r.details.map Prod.fst ++ ["financial_endpoint".toList] := by
  unfold apiStage2
  dsimp only
  repeat' split
  all_goals first
    | (left; simp; done)
    | (right; simp; done)

lemma apiStage3_keys (cfg : Config) (d : HttpResult) (tMs : Rat) (r : CatResult) :
    (apiStage3 cfg d tMs r).details.map Prod.fst =
        r.details.map Prod.fst ++ ["dcf_performance".toList] ∨
      (apiStage3 cfg d tMs r).details.map Prod.fst =
        r.details.map Prod.fst ++ ["dcf_endpoint".toList] := by
  unfold apiStage3
  repeat' split
  all_goals first
    | (left; simp; done)
    | (right; simp; done)

/-- Counterexample for C4: in the database assessor the connection is up and
the row-count queries would succeed (`inputCount`/`outputCount` are `ok 5`),
but an exception in the earlier schema probe skips the data-integrity and
query-performance probes entirely — they leave no details entry and no issue
of their own, so a failing probe does prevent the remaining probes of its
assessor from attempting to run. -/
theorem claim4_counterexample :
    dbMidFail.inputCount = Except.ok 5 ∧ dbMidFail.outputCount = Except.ok 5 ∧
    (assess_database_readiness defaultConfig dbMidFail).details.map Prod.fst =
      ["connectivity".toList, "database_error".toList] ∧
    (assess_database_readiness defaultConfig dbMidFail).issues =
      ["Database connection error: schema query crashed".toList] ∧
    ((assess_database_readiness defaultConfig dbMidFail).details.map Prod.fst).contains
      "data_integrity".toList = false ∧
    (assess_database_readiness defaultConfig dbMidFail).score = 20 := by
  refine ⟨rfl, rfl, ?_, ?_, ?_, ?_⟩ <;> decide

/-- C4 (amended): probe isolation holds between try blocks — every
code-quality probe always writes its details entry no matter how earlier
probes fail, and each API try block always writes an entry — but the four
database probes share one try block, so the first database error (at connect
time or mid-probe) skips every remaining database probe, leaving only the
handler's single entry and single issue instead of letting sibling probes
attempt and fail independently. -/
theorem claim4_probe_isolation :
    (∀ (w : CqWorld), (assess_code_quality w).details.map Prod.fst =
      ["backend_tests".toList, "test_coverage".toList, "static_analysis".toList,
       "security_scan".toList]) ∧
    (∀ (cfg : Config) (w : ApiWorld),
      "health_check".toList ∈ (assess_api_readiness cfg w).details.map Prod.fst ∧
      ("serialization".toList ∈ (assess_api_readiness cfg w).details.map Prod.fst ∨
        "financial_endpoint".toList ∈ (assess_api_readiness cfg w).details.map Prod.fst) ∧
      ("dcf_performance".toList ∈ (assess_api_readiness cfg w).details.map Prod.fst ∨
        "dcf_endpoint".toList ∈ (assess_api_readiness cfg w).details.map Prod.fst)) ∧
    (∀ (cfg : Config) (w : DbWorld) (m : PyStr), w.connect = some (.dbError m) →
      (assess_database_readiness cfg w).details.map Prod.fst = ["database_error".toList] ∧
      (assess_database_readiness cfg w).issues =
        ["Database connection error: ".toList ++ m]) ∧
    (∀ (cfg : Config) (w : DbWorld) (m : PyStr),
      w.connect = none → w.select1 = none → w.schemaCols = .error (.dbError m) →
      (assess_database_readiness cfg w).details.map Prod.fst =
        ["connectivity".toList, "database_error".toList] ∧
      (assess_database_readiness cfg w).issues =
        ["Database connection error: ".toList ++ m]) :=
  by
  refine ⟨?_, ?_, ?_, ?_⟩
  · intro w
    unfold assess_code_quality
    rw [cqStage4_keys, cqStage3_keys, cqStage2_keys, cqStage1_keys]
    simp [initResult]
  · intro cfg w
    unfold assess_api_readiness
    rcases apiStage3_keys cfg w.dcf w.dcfTimeMs
        (apiStage2 w.financial (apiStage1 w.health initResult)) with h3 | h3 <;>
      rcases apiStage2_keys w.financial (apiStage1 w.health initResult) with h2 | h2 <;>
      rw [h3, h2, apiStage1_keys] <;> simp [initResult]
  · intro cfg w m hc
    constructor <;>
      simp [assess_database_readiness, dbStage1, dbStage2, dbStage3, dbStage4, dbFinal, hc,
            addIssue, addDetail, initResult]
  · intro cfg w m h1 h2 h3
    constructor <;>
      simp [assess_database_readiness, dbStage1, dbStage2, dbStage3, dbStage4, dbFinal,
            h1, h2, h3, addIssue, addDetail, initResult]

/-- Closed instance of `claim4_probe_isolation`: the mid-probe schema failure
leaves exactly the connectivity entry plus the handler entry. -/
theorem claim4_probe_isolation_witness :
    (assess_database_readiness defaultConfig dbMidFail).details.map Prod.fst =
      ["connectivity".toList, "database_error".toList] ∧
    (assess_database_readiness defaultConfig dbMidFail).issues =
      ["Database connection error: ".toList ++ "schema query crashed".toList] :=
  claim4_probe_isolation.2.2.2 defaultConfig dbMidFail "schema query crashed".toList rfl rfl rfl

/-- Counterexample for C7: with `uptime` exiting non-zero the load probe
writes no details entry and appends no issue (only memory and disk entries
exist), and with `df` exiting non-zero the disk probe likewise writes nothing
— so not every probe failure yields a details entry plus one issue string. -/
theorem claim7_counterexample :
    (assess_system_resources defaultConfig sysLoadFail).details.map Prod.fst =
      ["memory_usage".toList, "disk_space".toList] ∧
    (assess_system_resources defaultConfig sysLoadFail).issues = [] ∧
    (assess_system_resources defaultConfig sysLoadFail).score = 70 ∧
    (assess_system_resources defaultConfig sysDiskFail).details.map Prod.fst =
      ["memory_usage".toList, "system_load".toList] ∧
    (assess_system_resources defaultConfig sysDiskFail).issues = [] ∧
    (assess_system_resources defaultConfig sysDiskFail).score = 70 := by
  refine ⟨?_, ?_, ?_, ?_, ?_, ?_⟩ <;> decide

/-- C7 (amended): each code-quality probe converts every failure (non-zero
exit, timeout, raised exception) into a zero-point outcome with exactly one
appended issue, awards its full points with no issue on a zero exit, and
writes exactly one details entry per run regardless of outcome; the memory
probe of the system assessor does the same (full 40 points with no issue
exactly when `pgrep`, `ps`, the `int` parse and the threshold comparison all
succeed, zero points plus exactly one issue otherwise, always one entry).
The pattern does not extend to the rest of the System Resources assessor:
the disk-space probe writes no entry and no issue when `df` exits non-zero
or its output has at most one line, the system-load probe writes no entry
when `uptime` exits non-zero, and the load probe never appends an issue
string on any path — its exception handler records only a details entry. -/
theorem claim7_probe_details :
    (∀ (b : ProcOutcome) (x : Except PyStr Int) (r : CatResult),
      (cqStage1 b r).details.length = r.details.length + 1 ∧
      (cqStage2 x r).details.length = r.details.length + 1 ∧
      (cqStage3 x r).details.length = r.details.length + 1 ∧
      (cqStage4 x r).details.length = r.details.length + 1) ∧
    (∀ (b : ProcOutcome) (r : CatResult),
      (b = .ret 0 →
        (cqStage1 b r).score = r.score + 30 ∧ (cqStage1 b r).issues = r.issues) ∧
      (b ≠ .ret 0 →
        (cqStage1 b r).score = r.score ∧ ∃ i, (cqStage1 b r).issues = r.issues ++ [i])) ∧
    (∀ (x : Except PyStr Int) (r : CatResult),
      (x = .ok 0 →
        (cqStage2 x r).score = r.score + 20 ∧ (cqStage2 x r).issues = r.issues) ∧
      (x ≠ .ok 0 →
        (cqStage2 x r).score = r.score ∧ ∃ i, (cqStage2 x r).issues = r.issues ++ [i])) ∧
    (∀ (x : Except PyStr Int) (r : CatResult),
      (x = .ok 0 →
        (cqStage3 x r).score = r.score + 25 ∧ (cqStage3 x r).issues = r.issues) ∧
      (x ≠ .ok 0 →
        (cqStage3 x r).score = r.score ∧ ∃ i, (cqStage3 x r).issues = r.issues ++ [i])) ∧
    (∀ (x : Except PyStr Int) (r : CatResult),
      (x = .ok 0 →
        (cqStage4 x r).score = r.score + 25 ∧ (cqStage4 x r).issues = r.issues) ∧
      (x ≠ .ok 0 →
        (cqStage4 x r).score = r.score ∧ ∃ i, (cqStage4 x r).issues = r.issues ++ [i])) ∧
    (∀ (cfg : Config) (w : SysWorld) (r : CatResult),
      (sysStage1 cfg w r).details.length = r.details.length + 1) ∧
    (∀ (cfg : Config) (w : SysWorld) (r : CatResult),
      ((sysStage1 cfg w r).score = r.score + 40 ∧ (sysStage1 cfg w r).issues = r.issues) ∨
      ((sysStage1 cfg w r).score = r.score ∧
        ∃ i, (sysStage1 cfg w r).issues = r.issues ++ [i])) ∧
    (∀ (cfg : Config) (w : SysWorld) (r : CatResult),
      (sysStage1 cfg w r).score = r.score + 40 →
      ∃ jp mi kb, w.pgrep = .ok jp ∧ trimL jp.stdout ≠ [] ∧ w.ps = .ok mi ∧
        trimL mi.stdout ≠ [] ∧ pyInt (trimL mi.stdout) = some kb ∧
        ((Int.fdiv kb 1024 : Int) : Rat) < cfg.thresholds.memory_usage_mb) ∧
    (∀ (w : SysWorld) (r : CatResult) (p : ProcRes),
      w.df = .ok p → p.returncode ≠ 0 → sysStage2 w r = r) ∧
    (∀ (w : SysWorld) (r : CatResult) (p : ProcRes),
      w.df = .ok p → p.returncode = 0 → (splitNl (trimL p.stdout)).length ≤ 1 →
      sysStage2 w r = r) ∧
    (∀ (w : SysWorld) (r : CatResult) (p : ProcRes),
      w.uptime = .ok p → p.returncode ≠ 0 → sysStage3 w r = r) ∧
    (∀ (w : SysWorld) (r : CatResult) (m : PyStr),
      w.uptime = .error m →
      sysStage3 w r = addDetail r "load_check".toList ("ERROR: ".toList ++ m)) ∧
    (∀ (w : SysWorld) (r : CatResult), (sysStage3 w r).issues = r.issues) :=
  by
  refine ⟨?_, ?_, ?_, ?_, ?_, ?_, ?_, ?_, ?_, ?_, ?_, ?_, ?_⟩
  · intro b x r
    refine ⟨?_, ?_, ?_, ?_⟩
    · unfold cqStage1
      repeat' split
      all_goals simp
    · unfold cqStage2
      repeat' split
      all_goals simp
    · unfold cqStage3
      repeat' split
      all_goals simp
    · unfold cqStage4
      repeat' split
      all_goals simp
  · intro b r
    constructor
    · rintro rfl
      exact ⟨rfl, rfl⟩
    · intro hne
      match b, hne with
      | .ret c, hne =>
        have hc : ¬(c = 0) := fun h => hne (by rw [h])
        simp only [cqStage1]
        rw [if_neg hc]
        exact ⟨rfl, _, rfl⟩
      | .timedOut, _ => exact ⟨rfl, _, rfl⟩
      | .err m, _ => exact ⟨rfl, _, rfl⟩
  · intro x r
    constructor
    · rintro rfl
      exact ⟨rfl, rfl⟩
    · intro hne
      match x, hne with
      | .ok c, hne =>
        have hc : ¬(c = 0) := fun h => hne (by rw [h])
        simp only [cqStage2]
        rw [if_neg hc]
        exact ⟨rfl, _, rfl⟩
      | .error m, _ => exact ⟨rfl, _, rfl⟩
  · intro x r
    constructor
    · rintro rfl
      exact ⟨rfl, rfl⟩
    · intro hne
      match x, hne with
      | .ok c, hne =>
        have hc : ¬(c = 0) := fun h => hne (by rw [h])
        simp only [cqStage3]
        rw [if_neg hc]
        exact ⟨rfl, _, rfl⟩
      | .error m, _ => exact ⟨rfl, _, rfl⟩
  · intro x r
    constructor
    · rintro rfl
      exact ⟨rfl, rfl⟩
    · intro hne
      match x, hne with
      | .ok c, hne =>
        have hc : ¬(c = 0) := fun h => hne (by rw [h])
        simp only [cqStage4]
        rw [if_neg hc]
        exact ⟨rfl, _, rfl⟩
      | .error m, _ => exact ⟨rfl, _, rfl⟩
  · intro cfg w r
    unfold sysStage1
    dsimp only
    repeat' split
    all_goals simp
  · intro cfg w r
    unfold sysStage1
    dsimp only
    repeat' split
    all_goals first
      | (left; exact ⟨rfl, rfl⟩)
      | (right; exact ⟨rfl, _, rfl⟩)
  · intro cfg w r
    unfold sysStage1
    dsimp only
    repeat' split
    all_goals intro h
    all_goals first
      | (exact ⟨_, _, _, by assumption, by assumption, by assumption, by assumption,
          by assumption, by assumption⟩)
      | (simp at h)
  · intro w r p hdf hrc
    simp [sysStage2, hdf, hrc]
  · intro w r p hdf hrc hlen
    have hnot : ¬ ((splitNl (trimL p.stdout)).length > 1) := by omega
    simp [sysStage2, hdf, hrc, hnot]
  · intro w r p hup hrc
    simp [sysStage3, hup, hrc]
  · intro w r m hup
    simp [sysStage3, hup]
  · intro w r
    unfold sysStage3
    repeat' split
    all_goals simp

/-- Closed instance of `claim7_probe_details`: the non-zero-exit `uptime`
probe leaves the result untouched. -/
theorem claim7_probe_details_witness :
    sysStage3 sysLoadFail initResult = initResult :=
  claim7_probe_details.2.2.2.2.2.2.2.2.2.2.1 sysLoadFail initResult
    { stdout := [], returncode := 1 } rfl (by decide)

lemma exitFor_le (s : PyStr) : exitFor s ≤ 2 := by
  unfold exitFor
  split_ifs <;> omega

lemma dbStage4L_ok (q : Rat) (cfg : Config) (hq : cfg.thresholds.query_time_ms = q)
    (w : DbWorld) (s : DbState) : dbStage4L (.ok q) w s = dbStage4 cfg w s := by
  obtain ⟨r, e⟩ := s
  cases e with
  | some e => rfl
  | none =>
    cases h : w.joinQuery with
    | some e => simp [dbStage4L, dbStage4, h]
    | none => simp [dbStage4L, dbStage4, h, hq]

lemma apiStage3L_ok (q : Rat) (cfg : Config) (hq : cfg.thresholds.response_time_ms = q)
    (d : HttpResult) (tMs : Rat) (r : CatResult) :
    apiStage3L (.ok q) d tMs r = .ok (apiStage3 cfg d tMs r) := by
  cases d with
  | exc m => rfl
  | resp status body =>
    by_cases hs : status = 200 <;> simp [apiStage3L, apiStage3, hs, hq]

lemma sysStage1L_ok (q : Rat) (cfg : Config) (hq : cfg.thresholds.memory_usage_mb = q)
    (w : SysWorld) (r : CatResult) : sysStage1L (.ok q) w r = sysStage1 cfg w r := by
  unfold sysStage1L sysStage1
  rw [hq]

lemma run_assessment_full_ok (fc : FullConfig) (rt mu tp qt : Rat)
    (h1 : fc.thresholds.response_time_ms = .ok rt)
    (h2 : fc.thresholds.memory_usage_mb = .ok mu)
    (h3 : fc.thresholds.query_time_ms = .ok qt)
    (w : World) :
    run_assessment_full fc w = .ok (run_assessment (collapseConfig fc rt mu tp qt) w) := by
  unfold run_assessment_full assess_api_readiness_full assess_database_readiness_full
    assess_system_resources_full
  rw [h1, h2, h3,
      apiStage3L_ok rt (collapseConfig fc rt mu tp qt) rfl,
      dbStage4L_ok qt (collapseConfig fc rt mu tp qt) rfl,
      sysStage1L_ok mu (collapseConfig fc rt mu tp qt) rfl]
  rfl

/-- Counterexample for C6: a configuration file holding malformed JSON makes
`json.load` raise out of `load_config` with no handler, and a file holding
the perfectly valid JSON object whose thresholds section is the empty object
loads fine but makes the `response_time_ms` lookup raise an uncaught
`KeyError` during the API assessment (its try block catches only
`RequestException`) as soon as the DCF endpoint answers 200 — in both cases
the process ends with an uncaught exception, not one of the three mapped
exit codes. -/
theorem claim6_counterexample :
    mainRun badCfgInput perfectWorld =
      RunOutcome.raised "Expecting value: line 1 column 1 (char 0)".toList ∧
    mainRun emptyThresholdsInput perfectWorld =
      RunOutcome.raised "'response_time_ms'".toList :=
  ⟨rfl, rfl⟩

/-- C6 (amended): when the configuration loads and its effective thresholds
section still yields all four numeric bounds (in particular always with no
config file), the process runs all four assessments and exits with exactly
the status-mapped code — READY→0, READY_WITH_WARNINGS→1, NOT_READY→2, always
at most 2.  The claimed total contract fails on two inputs: a malformed
document raises out of `load_config`, and a valid JSON object that replaces
the thresholds mapping (such as one with an empty thresholds section) raises
an uncaught `KeyError` in the API assessor whenever the DCF endpoint answers
200, since that try block catches only `RequestException`. -/
theorem claim6_exit_codes :
    (∀ (ci : Option (Except PyStr CfgDoc)) (w : World) (fc : FullConfig) (rt mu tp qt : Rat),
      load_config ci = .ok fc →
      fc.thresholds.response_time_ms = .ok rt →
      fc.thresholds.memory_usage_mb = .ok mu →
      fc.thresholds.query_time_ms = .ok qt →
      mainRun ci w =
        .exited (exitFor (run_assessment (collapseConfig fc rt mu tp qt) w).overall_status)) ∧
    (∀ (w : World),
      mainRun none w = .exited (exitFor (run_assessment defaultConfig w).overall_status)) ∧
    exitFor "READY".toList = 0 ∧
    exitFor "READY_WITH_WARNINGS".toList = 1 ∧
    exitFor "NOT_READY".toList = 2 ∧
    (∀ (s : PyStr), s ≠ "READY".toList → s ≠ "READY_WITH_WARNINGS".toList → exitFor s = 2) ∧
    (∀ (ci : Option (Except PyStr CfgDoc)) (w : World) (c : Nat),
      mainRun ci w = .exited c → c ≤ 2) ∧
    (∀ (w : World) (body : PyStr), w.api.dcf = .resp 200 body →
      mainRun emptyThresholdsInput w = .raised "'response_time_ms'".toList) :=
  by
  refine ⟨?_, ?_, by decide, by decide, by decide, ?_, ?_, ?_⟩
  · intro ci w fc rt mu tp qt hl h1 h2 h3
    unfold mainRun
    rw [hl]
    dsimp only
    rw [run_assessment_full_ok fc rt mu tp qt h1 h2 h3 w]
  · intro w
    unfold mainRun
    rw [show load_config none = .ok fullDefaultConfig from rfl]
    dsimp only
    rw [run_assessment_full_ok fullDefaultConfig 2000 2048 95 1000 rfl rfl rfl w]
    rfl
  · intro s h1 h2
    unfold exitFor
    rw [if_neg h1, if_neg h2]
  · intro ci w c h
    unfold mainRun at h
    cases hl : load_config ci with
    | error m =>
      rw [hl] at h
      simp at h
    | ok fc =>
      rw [hl] at h
      dsimp only at h
      cases hr : run_assessment_full fc w with
      | error m =>
        rw [hr] at h
        simp at h
      | ok res =>
        rw [hr] at h
        dsimp only at h
        cases h
        exact exitFor_le _
  · intro w body hdcf
    have hrun : run_assessment_full emptyThresholdsConfig w =
        .error "'response_time_ms'".toList := by
      unfold run_assessment_full assess_api_readiness_full
      rw [show emptyThresholdsConfig.thresholds.response_time_ms =
            Except.error "'response_time_ms'".toList from rfl, hdcf]
      rfl
    unfold mainRun
    rw [show load_config emptyThresholdsInput = .ok emptyThresholdsConfig from rfl]
    dsimp only
    rw [hrun]

/-- Closed instance of `claim6_exit_codes`: the all-perfect run with no config
file exits 0. -/
theorem claim6_exit_codes_witness :
    mainRun none perfectWorld = RunOutcome.exited 0 :=
  by
  have h := claim6_exit_codes.2.1 perfectWorld
  rw [perfect_status] at h
  exact h
